import Mathlib

/-!
Verification of the synthetic social-media ROI data generator
(src/config.py, src/distributions.py, src/data_generator.py, generate_scores.py).

Modelling conventions (shallow embedding):
* numpy's unit-uniform draws (np.random.random / the uniform(a,b) primitives)
  are modelled by values of the subtype U01 of rationals in [0, 1);
  uniform(a, b) is a + u * (b - a), matching numpy's half-open [a, b).
* normal draws are location-scale transforms mean + z * std of an
  unconstrained standard draw z supplied by the random stream; exponential
  and geometric draws are likewise supplied by the stream.
* Python floats are modelled by exact rationals where the source only does
  field arithmetic, and by reals where the source applies exp / log.
* Python's int(x) truncates toward zero; round(x, k) and np.round are
  modelled as round-half-up at k decimals (the sources round bounded
  quantities whose bounds are exact multiples of 10^-k, so the half-even
  versus half-up difference never affects any property proved here).
* uuid.uuid4() draws from OS entropy, which numpy's seed does not control;
  it is modelled as a lookup into an entropy stream (Nat → Nat) that is a
  separate input of a run from the numpy seed.
* dictionary lookups that can raise KeyError, and np.random.choice /
  pandas .sample(1) on possibly-empty lists, are fallible: they return
  Option values and generators propagate the failure.
* each generated table is (List.range n).mapM of a per-row builder; row i
  reads the row-indexed draw record draws i, modelling the fact that the
  sequential numpy stream hands each loop iteration its own draws.
-/

/-- A unit-interval random draw: numpy's uniform variates lie in [0, 1). -/
def U01 : Type := {q : ℚ // 0 ≤ q ∧ q < 1}

/-- numpy uniform(a, b) as a location-scale transform of a unit draw. -/
def npUniform (a b : ℚ) (u : U01) : ℚ := a + u.val * (b - a)

/-- numpy normal(mean, std) as a location-scale transform of a standard draw. -/
def npNormalQ (mean std z : ℚ) : ℚ := mean + z * std

/-- Real-valued normal(mean, std), for the log-space samplers. -/
noncomputable def npNormalR (mean std z : ℝ) : ℝ := mean + z * std

/-- Real-valued uniform(a, b) draw from a unit draw. -/
noncomputable def npUniformR (a b : ℝ) (u : U01) : ℝ := a + (u.val : ℝ) * (b - a)

/-- np.random.randint(lo, hi): an integer uniform in [lo, hi). -/
def npRandint (lo hi : ℤ) (u : U01) : ℤ := lo + ⌊u.val * ((hi : ℚ) - (lo : ℚ))⌋

/-- np.random.choice over a list (uniform); fails on an empty list. -/
def npChoice {α : Type} (l : List α) (u : U01) : Option α :=
  l.get? (⌊u.val * (l.length : ℚ)⌋).toNat

/-- np.random.choice with probability vector p, by inverse-CDF walk; the last
category absorbs any residual mass.  Fails only on an empty category list. -/
def sampleCat {α : Type} : List (α × ℚ) → ℚ → Option α
  | [], _ => none
  | [(k, _)], _ => some k
  | (k, p) :: b :: r, u => if u < p then some k else sampleCat (b :: r) (u - p)

/-- Python int(): truncation toward zero. -/
def pyInt (q : ℚ) : ℤ := if 0 ≤ q then ⌊q⌋ else ⌈q⌉

/-- Python int() on a real value. -/
noncomputable def pyIntR (x : ℝ) : ℤ := if 0 ≤ x then ⌊x⌋ else ⌈x⌉

/-- np.clip(x, lo, hi) = minimum(hi, maximum(lo, x)). -/
def npClip {α : Type} [LinearOrder α] (x lo hi : α) : α := min hi (max lo x)

/-- round(x, 2) at rational precision (half-up; see header note). -/
def pyRound2 (q : ℚ) : ℚ := ((round (q * 100) : ℤ) : ℚ) / 100

/-- round(x, 2) on reals, for the log-normal order-value sampler. -/
noncomputable def pyRound2R (x : ℝ) : ℝ := ((round (x * 100) : ℤ) : ℝ) / 100

/-- round(x, 3), used for the touchpoint attribution weight. -/
def pyRound3 (q : ℚ) : ℚ := ((round (q * 1000) : ℤ) : ℚ) / 1000

/-- uuid.uuid4(): a fresh identifier read from the OS entropy stream. -/
def uuid4Str (e : ℕ) : String := "uuid-" ++ Nat.repr e

/- ------------------------------------------------------------------ -/
/- config.py                                                          -/
/- ------------------------------------------------------------------ -/

def N_BRANDS : ℕ := 25
def N_INFLUENCERS : ℕ := 1500
def N_POSTS : ℕ := 50000
def N_CONVERSIONS : ℕ := 30000
def N_TOUCHPOINTS : ℕ := 100000

/-- Dates are modelled as day numbers with DATE_START = "2024-02-01" at 0. -/
def DATE_START_DAY : ℤ := 0

/-- DATE_END = "2025-01-31" is 365 days after DATE_START. -/
def DATE_END_DAY : ℤ := 365

def PLATFORM_DISTRIBUTION : List (String × ℚ) :=
  [("Instagram", 0.45), ("TikTok", 0.35), ("YouTube", 0.12), ("Twitter", 0.08)]

def TIER_DISTRIBUTION : List (String × ℚ) :=
  [("nano", 0.40), ("micro", 0.35), ("mid", 0.15), ("macro", 0.07), ("mega", 0.03)]

def TIER_FOLLOWER_RANGES : String → Option (ℕ × ℕ)
  | "nano" => some (1000, 10000)
  | "micro" => some (10000, 100000)
  | "mid" => some (100000, 500000)
  | "macro" => some (500000, 1000000)
  | "mega" => some (1000000, 10000000)
  | _ => none

def TIER_ENGAGEMENT_RATES : String → Option (ℚ × ℚ)
  | "nano" => some (6.0, 1.5)
  | "micro" => some (3.5, 1.0)
  | "mid" => some (2.2, 0.6)
  | "macro" => some (1.5, 0.4)
  | "mega" => some (1.0, 0.3)
  | _ => none

def CONTENT_CATEGORIES : List String :=
  ["Luxury Fashion", "Streetwear", "Sustainable Fashion", "Fast Fashion",
   "Accessories", "Footwear", "Activewear", "Vintage/Thrift"]

def DOMINANT_COLORS : List String :=
  ["neutral_beige", "cream_white", "classic_black", "navy_blue",
   "olive_green", "terracotta", "dusty_rose", "burgundy",
   "camel_brown", "sage_green", "lavender", "rust_orange",
   "charcoal_grey", "ivory", "forest_green"]

def CONTENT_TYPE_BY_PLATFORM (platform : String) : List (String × ℚ) :=
  match platform with
  | "Instagram" => [("photo", 0.35), ("carousel", 0.25), ("reel", 0.30), ("story", 0.10)]
  | "TikTok" => [("video", 0.95), ("photo", 0.05)]
  | "YouTube" => [("video", 0.85), ("shorts", 0.15)]
  | "Twitter" => [("photo", 0.50), ("video", 0.25), ("text", 0.25)]
  | _ => [("photo", 1.0)]

def POSTING_TIME_DISTRIBUTION : List (ℕ × ℚ) :=
  [(6, 0.02), (7, 0.03), (8, 0.05), (9, 0.07), (10, 0.08),
   (11, 0.10), (12, 0.12), (13, 0.10), (14, 0.07), (15, 0.06),
   (16, 0.05), (17, 0.04), (18, 0.06), (19, 0.08), (20, 0.10),
   (21, 0.08), (22, 0.05), (23, 0.03)]

def DAY_OF_WEEK_DISTRIBUTION : List (ℕ × ℚ) :=
  [(0, 0.12), (1, 0.16), (2, 0.17), (3, 0.16), (4, 0.14), (5, 0.13), (6, 0.12)]

def VISUAL_STYLES : List (String × ℚ) :=
  [("lifestyle", 0.35), ("product_shot", 0.30), ("behind_scenes", 0.15),
   ("user_generated", 0.12), ("editorial", 0.08)]

def BRAND_TIERS : List (String × ℚ) :=
  [("Luxury", 0.20), ("Premium", 0.25), ("Mid-market", 0.30),
   ("Fast-fashion", 0.15), ("DTC", 0.10)]

def BRAND_AOV : String → Option (ℕ × ℕ)
  | "Luxury" => some (500, 2000)
  | "Premium" => some (150, 500)
  | "Mid-market" => some (50, 150)
  | "Fast-fashion" => some (25, 75)
  | "DTC" => some (75, 200)
  | _ => none

def MONTHLY_SEASONALITY : ℕ → Option ℚ
  | 1 => some 0.85
  | 2 => some 0.90
  | 3 => some 0.95
  | 4 => some 1.00
  | 5 => some 0.95
  | 6 => some 0.85
  | 7 => some 0.80
  | 8 => some 0.90
  | 9 => some 1.05
  | 10 => some 1.10
  | 11 => some 1.20
  | 12 => some 1.25
  | _ => none

/-- Month of a day number in the generation window (epoch 2024-02-01;
February 2024 has 29 days).  Days 0..365 cover 2024-02-01..2025-01-31. -/
def monthOfDay (d : ℤ) : ℕ :=
  if d < 29 then 2
  else if d < 60 then 3
  else if d < 90 then 4
  else if d < 121 then 5
  else if d < 151 then 6
  else if d < 182 then 7
  else if d < 213 then 8
  else if d < 243 then 9
  else if d < 274 then 10
  else if d < 304 then 11
  else if d < 335 then 12
  else 1

/- ------------------------------------------------------------------ -/
/- distributions.py                                                   -/
/- ------------------------------------------------------------------ -/

/-- generate_follower_count: log-uniform over the tier's follower range.
u is the unit draw behind np.random.uniform(log low, log high). -/
noncomputable def generate_follower_count (tier : String) (u : U01) : Option ℤ :=
  (TIER_FOLLOWER_RANGES tier).map fun lohi =>
    pyIntR (Real.exp (npUniformR (Real.log (lohi.1 : ℝ)) (Real.log (lohi.2 : ℝ)) u))

/-- generate_engagement_rate: tier-conditioned normal plus optional noise,
clipped to [0.5, 12.0].  z is the standard-normal draw, uNoise the unit draw
behind np.random.uniform(-0.3, 0.3). -/
def generate_engagement_rate (tier : String) (z : ℚ) (uNoise : U01)
    (add_noise : Bool) : Option ℚ :=
  (TIER_ENGAGEMENT_RATES tier).map fun ms =>
    let rate := npNormalQ ms.1 ms.2 z
    let rate := if add_noise then rate + npUniform (-0.3) 0.3 uNoise else rate
    npClip rate 0.5 12.0

/-- The four engagement counters of generate_engagement_metrics. -/
structure EngagementMetrics where
  likes : ℤ
  comments : ℤ
  shares : ℤ
  saves : ℤ
  deriving DecidableEq, Repr

/-- generate_engagement_metrics (distributions.py lines 60-108). -/
def generate_engagement_metrics (followers : ℕ) (engagement_rate : ℚ)
    (content_type : String) (is_viral : Bool)
    (uVar uViral uLikes uComment uShare uSave : U01) : EngagementMetrics :=
  let base_engagement := pyInt ((followers : ℚ) * (engagement_rate / 100))
  let variance := npUniform 0.7 1.3 uVar
  let variance := if is_viral then variance * npUniform 3 10 uViral else variance
  let total_engagement := pyInt ((base_engagement : ℚ) * variance)
  let likes := pyInt ((total_engagement : ℚ) * npUniform 0.85 0.92 uLikes)
  let comments := pyInt ((likes : ℚ) * npUniform 0.03 0.08 uComment)
  let shares := pyInt ((likes : ℚ) * npUniform 0.01 0.025 uShare)
  let save_rate :=
    if content_type = "product_shot" ∨ content_type = "carousel" then
      npUniform 0.03 0.06 uSave
    else
      npUniform 0.02 0.04 uSave
  let saves := pyInt ((likes : ℚ) * save_rate)
  { likes := max 1 likes, comments := max 0 comments,
    shares := max 0 shares, saves := max 0 saves }

/-- generate_reach_impressions (distributions.py lines 111-128). -/
def generate_reach_impressions (followers : ℕ) (engagement_rate : ℚ)
    (uReach uImp : U01) : ℤ × ℤ :=
  let reach_rate := npUniform 0.20 0.40 uReach
  let reach_rate :=
    if engagement_rate > 5 then reach_rate * 1.3
    else if engagement_rate > 3 then reach_rate * 1.1
    else reach_rate
  let reach := pyInt ((followers : ℚ) * reach_rate)
  let impressions := pyInt ((reach : ℚ) * npUniform 1.2 1.8 uImp)
  (reach, impressions)

/-- generate_post_time: (hour, day-of-week) categorical draws. -/
def generate_post_time (uHour uDay : U01) : Option (ℕ × ℕ) := do
  let hour ← sampleCat POSTING_TIME_DISTRIBUTION uHour.val
  let day ← sampleCat DAY_OF_WEEK_DISTRIBUTION uDay.val
  pure (hour, day)

/-- generate_caption_length: int(normal(180, 80)) clipped to [20, 500]. -/
def generate_caption_length (z : ℚ) : ℤ :=
  npClip (pyInt (npNormalQ 180 80 z)) 20 500

/-- generate_hashtag_count: platform-conditioned clipped normal. -/
def generate_hashtag_count (platform : String) (z : ℚ) (uOther : U01) : ℤ :=
  if platform = "Instagram" then npClip (pyInt (npNormalQ 8 4 z)) 1 30
  else if platform = "TikTok" then npClip (pyInt (npNormalQ 4 2 z)) 1 10
  else if platform = "Twitter" then npClip (pyInt (npNormalQ 2 1 z)) 0 5
  else pyInt (npUniform 1 5 uOther)

/-- generate_order_value: log-normal within the brand tier's AOV range,
clipped to [0.5 low, 1.5 high] and rounded to cents.  z is the
standard-normal draw behind np.random.normal. -/
noncomputable def generate_order_value (brand_tier : String) (z : ℝ) : Option ℝ :=
  (BRAND_AOV brand_tier).map fun lohi =>
    let log_low := Real.log (lohi.1 : ℝ)
    let log_high := Real.log (lohi.2 : ℝ)
    let log_value := npNormalR ((log_low + log_high) / 2) ((log_high - log_low) / 4) z
    let value := Real.exp log_value
    pyRound2R (npClip value ((lohi.1 : ℝ) * 0.5) ((lohi.2 : ℝ) * 1.5))

/-- generate_customer_journey_length: int(exponential(mean 7)) clipped to
[1, 90].  e is the standard-exponential draw behind np.random.exponential. -/
def generate_customer_journey_length (e : ℚ) : ℤ :=
  npClip (pyInt (7 * e)) 1 90

/-- generate_touchpoints_count: geometric(0.3) clipped to [1, 15]; g is the
geometric variate supplied by the stream. -/
def generate_touchpoints_count (g : ℕ) : ℤ :=
  npClip (pyInt (g : ℚ)) 1 15

/-- generate_outlier_probability: 7% of posts get an outlier multiplier
drawn from {0.3, 3.0, 5.0} with p = [0.3, 0.5, 0.2]. -/
def generate_outlier_probability (_tier : String) (uHit uWhich : U01) : Option ℚ :=
  if uHit.val < 0.07 then
    sampleCat [((0.3 : ℚ), (0.3 : ℚ)), (3.0, 0.5), (5.0, 0.2)] uWhich.val
  else
    some 1.0

/-- generate_attribution_weights (distributions.py lines 197-222). -/
def generate_attribution_weights (n_touchpoints : ℕ) (model : String) : List ℚ :=
  if model = "first_touch" then
    [1.0] ++ List.replicate (n_touchpoints - 1) 0.0
  else if model = "last_touch" then
    List.replicate (n_touchpoints - 1) 0.0 ++ [1.0]
  else if model = "linear" then
    List.replicate n_touchpoints (1.0 / (n_touchpoints : ℚ))
  else if model = "time_decay" then
    let raw_weights := (List.range n_touchpoints).map (fun i => (2 : ℚ) ^ i)
    let total := raw_weights.sum
    raw_weights.map (fun w => w / total)
  else if model = "position_based" then
    if n_touchpoints = 1 then [1.0]
    else if n_touchpoints = 2 then [0.5, 0.5]
    else
      let middle_weight := (0.2 : ℚ) / ((n_touchpoints - 2 : ℕ) : ℚ)
      [0.4] ++ List.replicate (n_touchpoints - 2) middle_weight ++ [0.4]
  else
    List.replicate n_touchpoints (1.0 / (n_touchpoints : ℚ))

/- ------------------------------------------------------------------ -/
/- data_generator.py                                                  -/
/- ------------------------------------------------------------------ -/

/-- A brand row (generate_brands). -/
structure Brand where
  brand_id : String
  brand_name : String
  brand_tier : String
  monthly_social_budget : ℚ
  primary_platform : String
  avg_product_price : ℝ
  target_demographic : String
  founded_year : ℤ

/-- The tier-keyed monthly budget ranges local to generate_brands. -/
def budgetRanges : String → Option (ℕ × ℕ)
  | "Luxury" => some (200000, 500000)
  | "Premium" => some (100000, 250000)
  | "Mid-market" => some (50000, 150000)
  | "Fast-fashion" => some (75000, 200000)
  | "DTC" => some (25000, 100000)
  | _ => none

def brandNamePres : List String :=
  ["Maison", "Atelier", "Casa", "Studio", "House of",
   "La", "Le", "The", "Modern", "Classic", "Urban", "Luxe",
   "Prima", "Bella", "Nova", "Vero", "Alto", "Aria", "Luna"]

def brandNameSufs : List String :=
  ["Mode", "Style", "Vogue", "Chic", "Edit", "Label",
   "Collective", "Co", "Design", "Wear", "Fashion", "Threads"]

/-- The numpy draws consumed by one iteration of the generate_brands loop. -/
structure BrandDraws where
  uTier : U01
  uPre : U01
  uSuf : U01
  uBudget : U01
  uPlatform : U01
  zAov : ℝ
  uDemo : U01
  uYear : U01

/-- One iteration of the generate_brands loop (row i); the uuid4 call reads
the OS entropy stream, which the numpy seed does not determine. -/
noncomputable def genBrand (draws : ℕ → BrandDraws) (entropy : ℕ → ℕ) (i : ℕ) :
    Option Brand := do
  let d := draws i
  let tier ← sampleCat BRAND_TIERS d.uTier.val
  let pre ← npChoice brandNamePres d.uPre
  let suf ← npChoice brandNameSufs d.uSuf
  let lohi ← budgetRanges tier
  let monthly_budget := npUniform (lohi.1 : ℚ) (lohi.2 : ℚ) d.uBudget
  let platform ← sampleCat PLATFORM_DISTRIBUTION d.uPlatform.val
  let price ← generate_order_value tier d.zAov
  let demo ← npChoice ["18-24", "25-34", "35-44", "25-44"] d.uDemo
  pure
    { brand_id := uuid4Str (entropy i)
      brand_name := pre ++ " " ++ suf
      brand_tier := tier
      monthly_social_budget := pyRound2 monthly_budget
      primary_platform := platform
      avg_product_price := price
      target_demographic := demo
      founded_year := npRandint 1990 2022 d.uYear }

/-- generate_brands: N rows of genBrand. -/
noncomputable def generateBrands (draws : ℕ → BrandDraws) (entropy : ℕ → ℕ)
    (n : ℕ) : Option (List Brand) :=
  (List.range n).mapM (genBrand draws entropy)

/-- The numpy global stream is a deterministic function of (seed, draw
index); this concrete mixing function stands in for the Mersenne twister —
what matters for the determinism claim is only that it is a function of the
seed.  Field k of row i reads draw index 16 * i + k. -/
def seedUnit (seed i : ℕ) : U01 :=
  ⟨(((seed * 7919 + i * 104729 + 12345) % 2 ^ 31 : ℕ) : ℚ) / 2 ^ 31,
   by
     constructor
     · positivity
     · rw [div_lt_one (by norm_num)]
       exact_mod_cast Nat.mod_lt _ (by norm_num)⟩

/-- The per-row brand draws induced by a seed (standard-normal draw also
derived deterministically from the seeded stream). -/
def brandDrawsOfSeed (seed : ℕ) : ℕ → BrandDraws := fun i =>
  { uTier := seedUnit seed (16 * i)
    uPre := seedUnit seed (16 * i + 1)
    uSuf := seedUnit seed (16 * i + 2)
    uBudget := seedUnit seed (16 * i + 3)
    uPlatform := seedUnit seed (16 * i + 4)
    zAov := ((seedUnit seed (16 * i + 5)).val : ℝ)
    uDemo := seedUnit seed (16 * i + 6)
    uYear := seedUnit seed (16 * i + 7) }

/-- A complete generate_brands run: the numpy draws are determined by the
seed, but the uuid4 identifiers read the OS entropy stream. -/
noncomputable def generateBrandsSeeded (seed : ℕ) (entropy : ℕ → ℕ) :
    Option (List Brand) :=
  generateBrands (brandDrawsOfSeed seed) entropy N_BRANDS

/-- The influencer columns consumed by the downstream generators
(generate_posts reads platform, tier, follower_count, engagement_rate via
the influencer_id lookup; the remaining influencer columns are never read
downstream and are not needed by any claim). -/
structure Influencer where
  influencer_id : String
  platform : String
  tier : String
  follower_count : ℕ
  engagement_rate : ℚ
  deriving DecidableEq, Repr

/-- A post row (generate_posts). -/
structure Post where
  post_id : String
  influencer_id : String
  brand_id : Option String
  platform : String
  post_date : ℤ
  post_time_hour : ℕ
  day_of_week : ℕ
  content_type : String
  caption_length : ℤ
  hashtag_count : ℤ
  has_cta : Bool
  product_count : ℕ
  visual_style : String
  dominant_color : String
  is_sponsored : Bool
  discount_code_present : Bool
  likes : ℤ
  comments : ℤ
  shares : ℤ
  saves : ℤ
  reach : ℤ
  impressions : ℤ
  deriving DecidableEq, Repr

/-- The numpy draws consumed by one iteration of the generate_posts loop
(nPoisson models the np.random.poisson(2) variate). -/
structure PostDraws where
  uInf : U01
  uDate : U01
  uHour : U01
  uDay : U01
  uContent : U01
  uSponsored : U01
  uBrand : U01
  uOutHit : U01
  uOutWhich : U01
  uVar : U01
  uViral : U01
  uLikes : U01
  uComment : U01
  uShare : U01
  uSave : U01
  uReach : U01
  uImp : U01
  zCaption : ℚ
  zHashtag : ℚ
  uHashtagOther : U01
  uCta : U01
  nPoisson : ℕ
  uVisual : U01
  uColor : U01
  uDiscount : U01

/-- One iteration of the generate_posts loop (row i). -/
def genPost (influencers : List Influencer) (brandIds : List String)
    (draws : ℕ → PostDraws) (entropy : ℕ → ℕ) (i : ℕ) : Option Post := do
  let d := draws i
  let date_range := DATE_END_DAY - DATE_START_DAY
  let inf ← npChoice influencers d.uInf
  let platform := inf.platform
  let random_days := npRandint 0 date_range d.uDate
  let post_date := DATE_START_DAY + random_days
  let month := monthOfDay post_date
  let hd ← generate_post_time d.uHour d.uDay
  let content_type ← sampleCat (CONTENT_TYPE_BY_PLATFORM platform) d.uContent.val
  let sponsoredThreshold : ℚ :=
    if inf.tier = "mid" ∨ inf.tier = "macro" ∨ inf.tier = "mega"
    then 0.25 else 0.10
  let is_sponsored : Bool := decide (d.uSponsored.val < sponsoredThreshold)
  let outlier_mult ← generate_outlier_probability inf.tier d.uOutHit d.uOutWhich
  let seasonality ← MONTHLY_SEASONALITY month
  let base_engagement := generate_engagement_metrics inf.follower_count
    (inf.engagement_rate * seasonality) content_type (decide (outlier_mult > 2))
    d.uVar d.uViral d.uLikes d.uComment d.uShare d.uSave
  let ri := generate_reach_impressions inf.follower_count inf.engagement_rate
    d.uReach d.uImp
  let brand_id ← if d.uSponsored.val < sponsoredThreshold then
                   some <$> npChoice brandIds d.uBrand
                 else pure none
  let visual ← sampleCat VISUAL_STYLES d.uVisual.val
  let color ← npChoice DOMINANT_COLORS d.uColor
  pure
    { post_id := uuid4Str (entropy i)
      influencer_id := inf.influencer_id
      brand_id := brand_id
      platform := platform
      post_date := post_date
      post_time_hour := hd.1
      day_of_week := hd.2
      content_type := content_type
      caption_length := generate_caption_length d.zCaption
      hashtag_count := generate_hashtag_count platform d.zHashtag d.uHashtagOther
      has_cta := decide (d.uCta.val < 0.45)
      product_count := if is_sponsored then d.nPoisson else 0
      visual_style := visual
      dominant_color := color
      is_sponsored := is_sponsored
      discount_code_present := is_sponsored && decide (d.uDiscount.val < 0.30)
      likes := base_engagement.likes
      comments := base_engagement.comments
      shares := base_engagement.shares
      saves := base_engagement.saves
      reach := ri.1
      impressions := ri.2 }

/-- generate_posts: N rows of genPost. -/
def generatePosts (influencers : List Influencer) (brandIds : List String)
    (draws : ℕ → PostDraws) (entropy : ℕ → ℕ) (n : ℕ) : Option (List Post) :=
  (List.range n).mapM (genPost influencers brandIds draws entropy)

/-- A conversion row (generate_conversions). -/
structure Conversion where
  conversion_id : String
  customer_id : String
  post_id : Option String
  influencer_id : Option String
  brand_id : Option String
  conversion_date : ℤ
  attribution_type : String
  utm_source : String
  utm_medium : String
  order_value : ℝ
  product_category : String
  discount_code_used : Bool
  customer_journey_length : ℤ
  touchpoints_count : ℤ

def attributionTypeDist : List (String × ℚ) :=
  [("first_touch", 0.15), ("last_touch", 0.25), ("linear", 0.20),
   ("time_decay", 0.25), ("position_based", 0.15)]

def productCategories : List String :=
  ["Clothing", "Accessories", "Footwear", "Bags", "Jewelry"]

/-- The numpy draws consumed by one iteration of the generate_conversions
loop (eJourney is the standard-exponential variate, nGeom the geometric
variate behind generate_touchpoints_count). -/
structure ConvDraws where
  uHasAttr : U01
  uPost : U01
  eJourney : ℚ
  uDate : U01
  uBrand : U01
  uAttrType : U01
  uUtmSource : U01
  uUtmMedium : U01
  zAov : ℝ
  uCategory : U01
  uDiscount : U01
  nGeom : ℕ

/-- The brand-tier resolution of generate_conversions line 284:
brand_lookup[brand_id]["brand_tier"] if brand_id else "Mid-market";
a missing key raises, modelled by none. -/
def resolveBrandTier (brands : List Brand) : Option String → Option String
  | some bid => (brands.find? (fun b => b.brand_id == bid)).map Brand.brand_tier
  | none => some "Mid-market"

/-- One iteration of the generate_conversions loop (row i); rows consume
entropy slots 2i and 2i+1 for the conversion and customer uuids. -/
noncomputable def genConversion (brands : List Brand)
    (sponsoredPosts : List Post) (draws : ℕ → ConvDraws) (entropy : ℕ → ℕ)
    (i : ℕ) : Option Conversion := do
  let d := draws i
  let date_range := DATE_END_DAY - DATE_START_DAY
  let attributed :=
    if d.uHasAttr.val < 0.65 ∧ 0 < sponsoredPosts.length then
      (npChoice sponsoredPosts d.uPost).map fun post =>
        let journey_length := generate_customer_journey_length d.eJourney
        (some post.post_id, some post.influencer_id, post.brand_id,
         min (post.post_date + journey_length) DATE_END_DAY, journey_length)
    else
      let random_days := npRandint 0 date_range d.uDate
      let journey_length := generate_customer_journey_length d.eJourney
      (npChoice (brands.map Brand.brand_id) d.uBrand).map fun bid =>
        (none, none, some bid, DATE_START_DAY + random_days, journey_length)
  let fields ← attributed
  let post_id := fields.1
  let influencer_id := fields.2.1
  let brand_id := fields.2.2.1
  let conversion_date := fields.2.2.2.1
  let journey_length := fields.2.2.2.2
  let brand_tier ← resolveBrandTier brands brand_id
  let attr_type ← sampleCat attributionTypeDist d.uAttrType.val
  let utm_source ← npChoice
    ["instagram", "tiktok", "youtube", "twitter", "direct", "organic"] d.uUtmSource
  let utm_medium ← npChoice ["social", "influencer", "organic", "paid"] d.uUtmMedium
  let order_value ← generate_order_value brand_tier d.zAov
  let category ← npChoice productCategories d.uCategory
  pure
    { conversion_id := uuid4Str (entropy (2 * i))
      customer_id := uuid4Str (entropy (2 * i + 1))
      post_id := post_id
      influencer_id := influencer_id
      brand_id := brand_id
      conversion_date := conversion_date
      attribution_type := attr_type
      utm_source := utm_source
      utm_medium := utm_medium
      order_value := order_value
      product_category := category
      discount_code_used := post_id.isSome && decide (d.uDiscount.val < 0.40)
      customer_journey_length := journey_length
      touchpoints_count := generate_touchpoints_count d.nGeom }

/-- generate_conversions: N rows of genConversion over the sponsored posts
(the source filters posts_df on is_sponsored == True first). -/
noncomputable def generateConversions (brands : List Brand)
    (sponsoredPosts : List Post) (draws : ℕ → ConvDraws) (entropy : ℕ → ℕ)
    (n : ℕ) : Option (List Conversion) :=
  (List.range n).mapM (genConversion brands sponsoredPosts draws entropy)

/-- A touchpoint row (generate_touchpoints). -/
structure Touchpoint where
  touchpoint_id : String
  customer_id : String
  post_id : Option String
  touchpoint_type : String
  touchpoint_date : ℤ
  platform : String
  contributed_to_conversion : Bool
  conversion_id : Option String
  attribution_weight : ℚ
  deriving DecidableEq, Repr

def touchpointTypeDist : List (String × ℚ) :=
  [("view", 0.35), ("click", 0.20), ("save", 0.10), ("like", 0.15),
   ("comment", 0.05), ("website_visit", 0.10), ("add_to_cart", 0.05)]

/-- The numpy draws consumed by one iteration of the generate_touchpoints
loop. -/
structure TouchDraws where
  uLeads : U01
  uConv : U01
  uDaysBefore : U01
  uHasPost : U01
  uPost : U01
  uDate : U01
  uPlatFallback : U01
  uType : U01
  uWeight : U01

/-- The platform resolution of generate_touchpoints lines 347-352: inherit
the linked post's platform when the post is found, else sample one
uniformly (four platforms when a post id was present but not found, five
when there was no post id). -/
def resolvePlatform (posts : List Post) (pid? : Option String) (u : U01) :
    Option String :=
  match pid? with
  | some pid =>
    match posts.find? (fun p => p.post_id == pid) with
    | some p => some p.platform
    | none => npChoice ["Instagram", "TikTok", "YouTube", "Twitter"] u
  | none => npChoice ["Instagram", "TikTok", "YouTube", "Twitter", "Website"] u

/-- One iteration of the generate_touchpoints loop (row i); rows consume
entropy slots 2i (touchpoint uuid) and 2i+1 (fresh customer uuid). -/
def genTouchpoint (conversionsWithPosts : List Conversion) (posts : List Post)
    (draws : ℕ → TouchDraws) (entropy : ℕ → ℕ) (i : ℕ) : Option Touchpoint := do
  let d := draws i
  let leads_to_conversion : Bool := decide (d.uLeads.val < 0.30)
  let linked ←
    if d.uLeads.val < 0.30 ∧ 0 < conversionsWithPosts.length then
      (npChoice conversionsWithPosts d.uConv).map fun conversion =>
        let days_before :=
          npRandint 0 (max 1 conversion.customer_journey_length) d.uDaysBefore
        (some conversion.conversion_id, conversion.customer_id,
         conversion.post_id, conversion.conversion_date - days_before)
    else
      let pid? : Option (Option String) :=
        if d.uHasPost.val < 0.7 then
          (npChoice posts d.uPost).map fun p => some p.post_id
        else
          some none
      pid?.map fun pid =>
        let random_days := npRandint 0 (DATE_END_DAY - DATE_START_DAY) d.uDate
        (none, uuid4Str (entropy (2 * i + 1)), pid,
         DATE_START_DAY + random_days)
  let conversion_id := linked.1
  let customer_id := linked.2.1
  let post_id := linked.2.2.1
  let touchpoint_date := linked.2.2.2
  let platform ← resolvePlatform posts post_id d.uPlatFallback
  let ttype ← sampleCat touchpointTypeDist d.uType.val
  pure
    { touchpoint_id := uuid4Str (entropy (2 * i))
      customer_id := customer_id
      post_id := post_id
      touchpoint_type := ttype
      touchpoint_date := touchpoint_date
      platform := platform
      contributed_to_conversion := leads_to_conversion
      conversion_id := conversion_id
      attribution_weight :=
        if d.uLeads.val < 0.30 then pyRound3 (npUniform 0.05 0.40 d.uWeight)
        else 0.0 }

/-- generate_touchpoints: N rows of genTouchpoint over the conversions that
have a post (the source filters conversions_df on post_id.notna() first). -/
def generateTouchpoints (conversionsWithPosts : List Conversion)
    (posts : List Post) (draws : ℕ → TouchDraws) (entropy : ℕ → ℕ)
    (n : ℕ) : Option (List Touchpoint) :=
  (List.range n).mapM (genTouchpoint conversionsWithPosts posts draws entropy)

/- ------------------------------------------------------------------ -/
/- generate_scores.py                                                 -/
/- ------------------------------------------------------------------ -/

/-- The per-influencer aggregate columns of inf_data after the merges and
fillna steps of generate_scores.py (lines 16-30): post sums, conversion
count and revenue, plus the influencer attributes the score reads. -/
structure InfAgg where
  follower_count : ℚ
  audience_authenticity_score : ℚ
  avg_collaboration_cost : ℚ
  content_category : String
  likes : ℚ
  comments : ℚ
  saves : ℚ
  shares : ℚ
  sponsored_posts : ℚ
  conversions : ℚ
  revenue : ℚ
  deriving DecidableEq, Repr

/-- A scored influencer row (the score columns of influencer_scores.csv). -/
structure ScoredInf where
  engagement_quality_score : ℚ
  authenticity_score : ℚ
  conversion_score : ℚ
  roi_score : ℚ
  brand_alignment_score : ℚ
  influencer_score : ℚ
  performance_segment : String
  deriving DecidableEq, Repr

/-- Smallest element of a population column (sklearn data_min_). -/
def colMin : List ℚ → ℚ
  | [] => 0
  | x :: xs => xs.foldl min x

/-- Largest element of a population column (sklearn data_max_). -/
def colMax : List ℚ → ℚ
  | [] => 0
  | x :: xs => xs.foldl max x

/-- MinMaxScaler(feature_range=(0, 100)).fit_transform: rescale x relative
to the population column; a zero data range is replaced by 1
(sklearn _handle_zeros_in_scale), sending every value to 0. -/
def minMaxScale (column : List ℚ) (x : ℚ) : ℚ :=
  let lo := colMin column
  let hi := colMax column
  (x - lo) * (100 / (if hi - lo = 0 then 1 else hi - lo))

def weightedEngagement (r : InfAgg) : ℚ :=
  r.likes + r.comments * 2 + r.saves * 3 + r.shares * 2

def engagementQuality (r : InfAgg) : ℚ :=
  weightedEngagement r / (r.follower_count / 1000)

def conversionRate (r : InfAgg) : ℚ :=
  if r.sponsored_posts > 0 then r.conversions / r.sponsored_posts else 0

def totalCost (r : InfAgg) : ℚ := r.avg_collaboration_cost * r.sponsored_posts

def roiCapped (r : InfAgg) : ℚ :=
  let roi := if totalCost r > 0 then (r.revenue - totalCost r) / totalCost r else 0
  npClip roi (-1) 10

def alignmentScores : String → Option ℚ
  | "Luxury Fashion" => some 95
  | "Streetwear" => some 85
  | "Sustainable Fashion" => some 90
  | "Fast Fashion" => some 80
  | "Accessories" => some 85
  | "Footwear" => some 82
  | "Activewear" => some 78
  | "Vintage/Thrift" => some 88
  | _ => none

/-- content_category.map(alignment_scores).fillna(75). -/
def brandAlignment (r : InfAgg) : ℚ := (alignmentScores r.content_category).getD 75

/-- The scoring pipeline of generate_scores.py lines 32-63: five sub-scores
(three min-max rescaled against the whole population), the weighted
composite, and the three-way performance segment. -/
def scoreInfluencers (pop : List InfAgg) : List ScoredInf :=
  let eqCol := pop.map engagementQuality
  let crCol := pop.map conversionRate
  let roiCol := pop.map roiCapped
  pop.map fun r =>
    let engagement_quality_score := minMaxScale eqCol (engagementQuality r)
    let authenticity_score := r.audience_authenticity_score * 100
    let conversion_score := minMaxScale crCol (conversionRate r)
    let roi_score := minMaxScale roiCol (roiCapped r)
    let brand_alignment_score := brandAlignment r
    let influencer_score :=
      0.25 * engagement_quality_score + 0.25 * authenticity_score +
      0.30 * conversion_score + 0.15 * roi_score + 0.05 * brand_alignment_score
    { engagement_quality_score := engagement_quality_score
      authenticity_score := authenticity_score
      conversion_score := conversion_score
      roi_score := roi_score
      brand_alignment_score := brand_alignment_score
      influencer_score := influencer_score
      performance_segment :=
        if influencer_score ≥ 75 then "High Performer"
        else if influencer_score ≥ 50 then "Medium Performer"
        else "Low Performer" }

/- ------------------------------------------------------------------ -/
/- Concrete runs used by the witnesses and counterexamples            -/
/- ------------------------------------------------------------------ -/

/-- The unit draw 0. -/
def u0 : U01 := ⟨0, by norm_num⟩

/-- The unit draw 0.7 (fails a strict < 0.7 threshold test). -/
def u07 : U01 := ⟨7/10, by norm_num⟩

/-- The unit draw 0.9. -/
def u09 : U01 := ⟨9/10, by norm_num⟩

/-- A concrete OS entropy stream. -/
def idEnt : ℕ → ℕ := fun n => n

/-- A concrete influencer row. -/
def sampleInfluencer : Influencer :=
  { influencer_id := "inf0", platform := "Instagram", tier := "nano",
    follower_count := 1000, engagement_rate := 3.5 }

/-- A concrete all-zero draw stream for generate_posts. -/
def zeroPostDraws : ℕ → PostDraws := fun _ =>
  { uInf := u0, uDate := u0, uHour := u0, uDay := u0, uContent := u0,
    uSponsored := u0, uBrand := u0, uOutHit := u0, uOutWhich := u0,
    uVar := u0, uViral := u0, uLikes := u0, uComment := u0, uShare := u0,
    uSave := u0, uReach := u0, uImp := u0, zCaption := 0, zHashtag := 0,
    uHashtagOther := u0, uCta := u0, nPoisson := 2, uVisual := u0,
    uColor := u0, uDiscount := u0 }

/-- A concrete brand row (order value irrelevant to the claims that use it). -/
noncomputable def sampleBrand : Brand :=
  { brand_id := "b0", brand_name := "Maison Mode", brand_tier := "Luxury",
    monthly_social_budget := 200000, primary_platform := "Instagram",
    avg_product_price := 100, target_demographic := "18-24",
    founded_year := 2000 }

/-- A concrete draw stream for generate_conversions. -/
noncomputable def zeroConvDraws : ℕ → ConvDraws := fun _ =>
  { uHasAttr := u0, uPost := u0, eJourney := 1, uDate := u0, uBrand := u0,
    uAttrType := u0, uUtmSource := u0, uUtmMedium := u0, zAov := 0,
    uCategory := u0, uDiscount := u0, nGeom := 1 }

/-- A concrete conversion with a post, for the touchpoint runs: journey
length 5 and conversion date 10. -/
noncomputable def c5Conv : Conversion :=
  { conversion_id := "c0", customer_id := "cust0", post_id := some "p0",
    influencer_id := some "inf0", brand_id := some "b0", conversion_date := 10,
    attribution_type := "linear", utm_source := "instagram",
    utm_medium := "social", order_value := 100, product_category := "Clothing",
    discount_code_used := false, customer_journey_length := 5,
    touchpoints_count := 3 }

/-- A concrete draw stream for generate_touchpoints: the first row draws
leads_to_conversion = true (0 < 0.30) and days_before = 0. -/
def c5TouchDraws : ℕ → TouchDraws := fun _ =>
  { uLeads := u0, uConv := u0, uDaysBefore := u0, uHasPost := u07,
    uPost := u0, uDate := u0, uPlatFallback := u0, uType := u0, uWeight := u0 }

/-- A concrete aggregate row for the scoring run. -/
def sampleAgg : InfAgg :=
  { follower_count := 1000, audience_authenticity_score := 0.9,
    avg_collaboration_cost := 100, content_category := "Streetwear",
    likes := 100, comments := 10, saves := 5, shares := 5,
    sponsored_posts := 2, conversions := 1, revenue := 500 }

/-- The touchpoint that the c5 run produces: linked to conversion c0 with
days_before = 0, so its date coincides with the conversion date. -/
def c5Expected : Touchpoint :=
  { touchpoint_id := "uuid-0", customer_id := "cust0", post_id := some "p0",
    touchpoint_type := "view", touchpoint_date := 10, platform := "Instagram",
    contributed_to_conversion := true, conversion_id := some "c0",
    attribution_weight := 1/20 }

/-- The touchpoint produced from an empty conversions-with-posts table when
the leads-to-conversion coin lands true: contributed but with no conversion
reference and a positive weight. -/
def c6Expected : Touchpoint :=
  { touchpoint_id := "uuid-0", customer_id := "uuid-1", post_id := none,
    touchpoint_type := "view", touchpoint_date := 0, platform := "Instagram",
    contributed_to_conversion := true, conversion_id := none,
    attribution_weight := 1/20 }

/-- The post produced by the all-zero draw run over sampleInfluencer and
brand list ["b0"] (sponsored, since 0 < 0.10). -/
def c4Post : Post :=
  { post_id := "uuid-0", influencer_id := "inf0", brand_id := some "b0",
    platform := "Instagram", post_date := 0, post_time_hour := 6,
    day_of_week := 0, content_type := "photo", caption_length := 180,
    hashtag_count := 8, has_cta := true, product_count := 2,
    visual_style := "lifestyle", dominant_color := "neutral_beige",
    is_sponsored := true, discount_code_present := true, likes := 17,
    comments := 0, shares := 0, saves := 0, reach := 220, impressions := 264 }

/-- A second OS entropy stream, diverging from idEnt at every index. -/
def shiftEnt : ℕ → ℕ := fun n => n + 1

/-- The conversion produced by the all-zero-draw run over brands
[sampleBrand] and sponsored posts [c4Post] (attributed branch; journey
length 7 from the unit exponential draw 1). -/
noncomputable def c4Conv : Conversion :=
  { conversion_id := "uuid-0", customer_id := "uuid-1",
    post_id := some "uuid-0", influencer_id := some "inf0",
    brand_id := some "b0", conversion_date := 7,
    attribution_type := "first_touch", utm_source := "instagram",
    utm_medium := "social",
    order_value := (generate_order_value "Luxury" 0).getD 0,
    product_category := "Clothing", discount_code_used := true,
    customer_journey_length := 7, touchpoints_count := 1 }

/-- The numpy draws consumed by one row of the generate_influencers loop
(only the columns read downstream or by a claim are modelled). -/
structure InfDraws where
  uTier : U01
  uPlatform : U01
  uFollower : U01
  zEng : ℚ
  uNoise : U01

/-- One row of the generate_influencers loop: tier and platform come from
the batch categorical samples drawn before the loop, follower count and
engagement rate from the tier-conditioned distributions; the stored
engagement rate is rounded to 2 decimals as in the source. -/
noncomputable def genInfluencer (draws : ℕ → InfDraws) (entropy : ℕ → ℕ)
    (i : ℕ) : Option Influencer := do
  let d := draws i
  let tier ← sampleCat TIER_DISTRIBUTION d.uTier.val
  let platform ← sampleCat PLATFORM_DISTRIBUTION d.uPlatform.val
  let followers ← generate_follower_count tier d.uFollower
  let engagement_rate ← generate_engagement_rate tier d.zEng d.uNoise true
  pure
    { influencer_id := uuid4Str (entropy i)
      platform := platform
      tier := tier
      follower_count := followers.toNat
      engagement_rate := pyRound2 engagement_rate }

/-- generate_influencers: the influencer table. -/
noncomputable def generateInfluencers (draws : ℕ → InfDraws)
    (entropy : ℕ → ℕ) (n : ℕ) : Option (List Influencer) :=
  (List.range n).mapM (genInfluencer draws entropy)

/-- An all-zero draw stream for generate_influencers. -/
def zeroInfDraws : ℕ → InfDraws := fun _ =>
  { uTier := u0, uPlatform := u0, uFollower := u0, zEng := 0, uNoise := u0 }

/-- The influencer the all-zero run produces: tier nano, follower count
exp(log 1000) = 1000, engagement rate 6.0 - 0.3 = 5.7. -/
def c7Inf : Influencer :=
  { influencer_id := "uuid-0", platform := "Instagram", tier := "nano",
    follower_count := 1000, engagement_rate := 5.7 }

/- ------------------------------------------------------------------ -/
/- Generic lemmas about the random-primitive model                    -/
/- ------------------------------------------------------------------ -/

theorem opt_eq_some_getD {α : Type} {o : Option α} (d : α)
    (h : o.isSome = true) : o = some (o.getD d) := by
  cases o with
  | none => cases h
  | some a => rfl

theorem mapM_option_mem {α β : Type} (f : α → Option β) :
    ∀ (l : List α) (ts : List β), l.mapM f = some ts →
      ∀ t ∈ ts, ∃ a ∈ l, f a = some t := by
  intro l
  induction l with
  | nil =>
    intro ts h t ht
    simp only [List.mapM_nil, pure] at h
    cases h
    cases ht
  | cons a as ih =>
    intro ts h t ht
    rw [List.mapM_cons] at h
    cases hfa : f a with
    | none => rw [hfa] at h; cases h
    | some b =>
      rw [hfa] at h
      cases has : as.mapM f with
      | none =>
        rw [has] at h
        cases h
      | some bs =>
        rw [has] at h
        simp only [Option.bind_eq_bind, Option.some_bind, Option.pure_def,
          Option.some.injEq] at h
        subst h
        rcases ht with _ | ⟨_, htl⟩
        · exact ⟨a, List.mem_cons_self a as, hfa⟩
        · obtain ⟨a', ha', hfa'⟩ := ih bs has t htl
          exact ⟨a', List.mem_cons_of_mem a ha', hfa'⟩

theorem npChoice_mem {α : Type} {l : List α} {u : U01} {a : α}
    (h : npChoice l u = some a) : a ∈ l := by
  unfold npChoice at h
  exact List.get?_mem h

theorem sampleCat_mem {α : Type} :
    ∀ (l : List (α × ℚ)) (u : ℚ) (k : α), sampleCat l u = some k →
      k ∈ l.map Prod.fst := by
  intro l
  induction l with
  | nil => intro u k h; cases h
  | cons a rest ih =>
    intro u k h
    cases rest with
    | nil =>
      obtain ⟨ka, pa⟩ := a
      simp only [sampleCat, Option.some.injEq] at h
      simp [h]
    | cons b r =>
      obtain ⟨ka, pa⟩ := a
      rw [sampleCat] at h
      by_cases hu : u < pa
      · rw [if_pos hu] at h
        cases h
        simp
      · rw [if_neg hu] at h
        have := ih (u - pa) k h
        simp only [List.map_cons, List.mem_cons]
        right
        simpa using this

theorem u01_nonneg (u : U01) : 0 ≤ u.val := u.property.1

theorem u01_lt_one (u : U01) : u.val < 1 := u.property.2

theorem npUniform_bounds {a b : ℚ} (u : U01) (hab : a ≤ b) :
    a ≤ npUniform a b u ∧ npUniform a b u ≤ b := by
  unfold npUniform
  constructor
  · nlinarith [u01_nonneg u, u01_lt_one u]
  · nlinarith [u01_nonneg u, u01_lt_one u]

theorem npUniform_lt {a b : ℚ} (u : U01) (hab : a < b) :
    npUniform a b u < b := by
  unfold npUniform
  nlinarith [u01_nonneg u, u01_lt_one u]

theorem npRandint_bounds {lo hi : ℤ} (u : U01) (h : lo < hi) :
    lo ≤ npRandint lo hi u ∧ npRandint lo hi u < hi := by
  unfold npRandint
  have h1 : (0 : ℚ) ≤ u.val * ((hi : ℚ) - (lo : ℚ)) := by
    have := u01_nonneg u
    have : ((lo : ℚ)) ≤ (hi : ℚ) := by exact_mod_cast h.le
    nlinarith [u01_nonneg u]
  have h2 : u.val * ((hi : ℚ) - (lo : ℚ)) < (hi : ℚ) - (lo : ℚ) := by
    have hd : (0 : ℚ) < (hi : ℚ) - (lo : ℚ) := by
      have : ((lo : ℚ)) < (hi : ℚ) := by exact_mod_cast h
      linarith
    nlinarith [u01_lt_one u, u01_nonneg u]
  constructor
  · have : (0 : ℤ) ≤ ⌊u.val * ((hi : ℚ) - (lo : ℚ))⌋ := by
      exact Int.floor_nonneg.mpr h1
    omega
  · have : ⌊u.val * ((hi : ℚ) - (lo : ℚ))⌋ < hi - lo := by
      rw [Int.floor_lt]
      push_cast
      linarith
    omega

theorem npClip_bounds {α : Type} [LinearOrder α] (x : α) {lo hi : α}
    (h : lo ≤ hi) : lo ≤ npClip x lo hi ∧ npClip x lo hi ≤ hi := by
  unfold npClip
  constructor
  · exact le_min h (le_max_left lo x)
  · exact min_le_left hi _

theorem pyInt_eq_floor {q : ℚ} (h : 0 ≤ q) : pyInt q = ⌊q⌋ := by
  unfold pyInt
  rw [if_pos h]

theorem round_mono_int {α : Type} [LinearOrderedField α] [FloorRing α]
    {x y : α} (h : x ≤ y) : round x ≤ round y := by
  rw [round_eq, round_eq]
  exact Int.floor_mono (by linarith)

/- ------------------------------------------------------------------ -/
/- C1: the attribution-weighting function                             -/
/- ------------------------------------------------------------------ -/

theorem gaw_first_touch (n : ℕ) :
    generate_attribution_weights n "first_touch" =
      1 :: List.replicate (n - 1) 0 := by
  unfold generate_attribution_weights
  norm_num

theorem gaw_last_touch (n : ℕ) :
    generate_attribution_weights n "last_touch" =
      List.replicate (n - 1) 0 ++ [1] := by
  unfold generate_attribution_weights
  rw [if_neg (by decide), if_pos rfl]
  norm_num

theorem gaw_linear (n : ℕ) :
    generate_attribution_weights n "linear" =
      List.replicate n (1 / (n : ℚ)) := by
  unfold generate_attribution_weights
  rw [if_neg (by decide), if_neg (by decide), if_pos rfl]
  norm_num

theorem two_pow_list_sum (n : ℕ) :
    ((List.range n).map (fun i => (2 : ℚ) ^ i)).sum = 2 ^ n - 1 := by
  induction n with
  | zero => simp
  | succ m ih =>
    rw [List.range_succ, List.map_append, List.sum_append, ih]
    simp
    ring

theorem sum_map_div {t : ℚ} :
    ∀ l : List ℚ, (l.map (fun w => w / t)).sum = l.sum / t := by
  intro l
  induction l with
  | nil => simp
  | cons a as ih =>
    simp only [List.map_cons, List.sum_cons, ih]
    rw [add_div]

theorem two_pow_sub_one_pos {n : ℕ} (h : 1 ≤ n) : (0 : ℚ) < 2 ^ n - 1 := by
  have h2 : (2 : ℚ) ^ 1 ≤ 2 ^ n := by
    apply pow_le_pow_right₀ (by norm_num) h
  norm_num at h2
  linarith

theorem gaw_time_decay (n : ℕ) :
    generate_attribution_weights n "time_decay" =
      (List.range n).map (fun i => (2 : ℚ) ^ i / (2 ^ n - 1)) := by
  unfold generate_attribution_weights
  rw [if_neg (by decide), if_neg (by decide), if_neg (by decide), if_pos rfl]
  simp only [List.map_map, two_pow_list_sum]
  rfl

theorem gaw_position_based (n : ℕ) (h : 3 ≤ n) :
    generate_attribution_weights n "position_based" =
      0.4 :: (List.replicate (n - 2) ((0.2 : ℚ) / ((n - 2 : ℕ) : ℚ)) ++ [0.4]) := by
  unfold generate_attribution_weights
  rw [if_neg (by decide), if_neg (by decide), if_neg (by decide),
    if_neg (by decide), if_pos rfl, if_neg (by omega), if_neg (by omega)]
  norm_num

theorem gaw_length {n : ℕ} (h1 : 1 ≤ n) (model : String) :
    (generate_attribution_weights n model).length = n := by
  unfold generate_attribution_weights
  split
  · simp; omega
  split
  · simp; omega
  split
  · simp
  split
  · simp
  split
  · split
    · simp; omega
    split
    · simp; omega
    · simp; omega
  · simp

theorem gaw_sum {n : ℕ} (h1 : 1 ≤ n) (model : String) :
    (generate_attribution_weights n model).sum = 1 := by
  have hn0 : (n : ℚ) ≠ 0 := Nat.cast_ne_zero.mpr (by omega)
  unfold generate_attribution_weights
  split
  · simp only [List.sum_append, List.sum_cons, List.sum_nil, List.sum_replicate,
      nsmul_eq_mul]
    norm_num
  split
  · simp only [List.sum_append, List.sum_cons, List.sum_nil, List.sum_replicate,
      nsmul_eq_mul]
    norm_num
  split
  · rw [List.sum_replicate, nsmul_eq_mul]
    rw [show (1.0 : ℚ) = 1 from by norm_num]
    field_simp
  split
  · rw [sum_map_div, two_pow_list_sum]
    have := two_pow_sub_one_pos h1
    field_simp
  split
  · split
    · norm_num
    split
    · norm_num
    · rename_i hne1 hne2
      have hm : ((n - 2 : ℕ) : ℚ) ≠ 0 := Nat.cast_ne_zero.mpr (by omega)
      simp only [List.sum_append, List.sum_cons, List.sum_nil, List.sum_replicate,
        nsmul_eq_mul]
      rw [show (0.4 : ℚ) = 2/5 from by norm_num,
        show (0.2 : ℚ) = 1/5 from by norm_num]
      field_simp
      ring
  · rw [List.sum_replicate, nsmul_eq_mul]
    rw [show (1.0 : ℚ) = 1 from by norm_num]
    field_simp

theorem gaw_pb_one :
    generate_attribution_weights 1 "position_based" = [1] := by
  unfold generate_attribution_weights
  rw [if_neg (by decide), if_neg (by decide), if_neg (by decide),
    if_neg (by decide), if_pos rfl, if_pos rfl]
  norm_num

theorem gaw_pb_two :
    generate_attribution_weights 2 "position_based" = [0.5, 0.5] := by
  unfold generate_attribution_weights
  rw [if_neg (by decide), if_neg (by decide), if_neg (by decide),
    if_neg (by decide), if_pos rfl, if_neg (by omega), if_pos rfl]

theorem gaw_unknown {model : String} (n : ℕ)
    (h : model ∉ ["first_touch", "last_touch", "linear", "time_decay",
      "position_based"]) :
    generate_attribution_weights n model =
      generate_attribution_weights n "linear" := by
  simp only [List.mem_cons, List.not_mem_nil, or_false, not_or] at h
  obtain ⟨h1, h2, h3, h4, h5⟩ := h
  rw [gaw_linear]
  unfold generate_attribution_weights
  rw [if_neg h1, if_neg h2, if_neg h3, if_neg h4, if_neg h5]
  norm_num

theorem gaw_time_decay_pairwise {n : ℕ} (h1 : 1 ≤ n) :
    (generate_attribution_weights n "time_decay").Pairwise (· < ·) := by
  rw [gaw_time_decay]
  refine (List.pairwise_lt_range n).map _ (fun a b hab => ?_)
  have hd := two_pow_sub_one_pos h1
  have hp : (2 : ℚ) ^ a < 2 ^ b := by
    apply pow_lt_pow_right₀ (by norm_num) hab
  exact div_lt_div_of_pos_right hp hd

/-- C1: for every model name and every touchpoint count n from 1 to 15,
generate_attribution_weights returns exactly n weights summing exactly to 1
(hence within 1e-6 of 1.0); first_touch puts all weight at index 0,
last_touch at index n-1, linear gives each position 1/n, time_decay gives
position i the weight 2^i / (2^n - 1) (proportional to 2^i) with strictly
increasing weights, position_based returns [1.0] for n = 1, [0.5, 0.5] for
n = 2 and 0.4 / split-0.2 / 0.4 for n ≥ 3, and any unknown model name
yields the same weights as linear. -/
theorem C1_attribution_weights (n : ℕ) (h1 : 1 ≤ n) (h15 : n ≤ 15)
    (model : String) :
    (generate_attribution_weights n model).length = n ∧
    (generate_attribution_weights n model).sum = 1 ∧
    |(generate_attribution_weights n model).sum - 1| ≤ 1 / 1000000 ∧
    generate_attribution_weights n "first_touch" =
      1 :: List.replicate (n - 1) 0 ∧
    generate_attribution_weights n "last_touch" =
      List.replicate (n - 1) 0 ++ [1] ∧
    generate_attribution_weights n "linear" =
      List.replicate n (1 / (n : ℚ)) ∧
    generate_attribution_weights n "time_decay" =
      (List.range n).map (fun i => (2 : ℚ) ^ i / (2 ^ n - 1)) ∧
    (generate_attribution_weights n "time_decay").Pairwise (· < ·) ∧
    generate_attribution_weights 1 "position_based" = [1] ∧
    generate_attribution_weights 2 "position_based" = [0.5, 0.5] ∧
    (3 ≤ n → generate_attribution_weights n "position_based" =
      0.4 :: (List.replicate (n - 2) ((0.2 : ℚ) / ((n - 2 : ℕ) : ℚ)) ++ [0.4])) ∧
    (model ∉ ["first_touch", "last_touch", "linear", "time_decay",
        "position_based"] →
      generate_attribution_weights n model =
        generate_attribution_weights n "linear") := by
  refine ⟨gaw_length h1 model, gaw_sum h1 model, ?_, gaw_first_touch n,
    gaw_last_touch n, gaw_linear n, gaw_time_decay n,
    gaw_time_decay_pairwise h1, gaw_pb_one, gaw_pb_two,
    fun h3 => gaw_position_based n h3, fun hm => gaw_unknown n hm⟩
  rw [gaw_sum h1 model]
  norm_num

theorem C1_attribution_weights_witness :
    1 ≤ 3 ∧ 3 ≤ 15 ∧ (generate_attribution_weights 3 "mystery").length = 3 ∧
    (generate_attribution_weights 3 "mystery").sum = 1 :=
  ⟨by norm_num, by norm_num,
    (C1_attribution_weights 3 (by norm_num) (by norm_num) "mystery").1,
    (C1_attribution_weights 3 (by norm_num) (by norm_num) "mystery").2.1⟩

/- ------------------------------------------------------------------ -/
/- C10: reach and impressions bounds                                  -/
/- ------------------------------------------------------------------ -/

/-- C10: for every follower count f >= 1 and every engagement rate, the
reach returned by generate_reach_impressions is at most 0.52 * f (the
20-40% base fraction even after the maximal 1.3x boost stays below 0.52),
hence always strictly below the follower count, and the impressions are at
most 1.8x the reach. -/
theorem C10_reach_impressions (f : ℕ) (hf : 1 ≤ f) (er : ℚ) (u1 u2 : U01) :
    ((generate_reach_impressions f er u1 u2).1 : ℚ) ≤ 0.52 * f ∧
    (generate_reach_impressions f er u1 u2).1 < (f : ℤ) ∧
    ((generate_reach_impressions f er u1 u2).2 : ℚ) ≤
      1.8 * ((generate_reach_impressions f er u1 u2).1 : ℚ) := by
  obtain ⟨h1a, h1b⟩ := @npUniform_bounds 0.20 0.40 u1 (by norm_num)
  have h1c := @npUniform_lt 0.20 0.40 u1 (by norm_num)
  obtain ⟨h3a, h3b⟩ := @npUniform_bounds 1.2 1.8 u2 (by norm_num)
  have hrate : 0 < (if er > 5 then npUniform 0.20 0.40 u1 * 1.3
      else if er > 3 then npUniform 0.20 0.40 u1 * 1.1
      else npUniform 0.20 0.40 u1) ∧
      (if er > 5 then npUniform 0.20 0.40 u1 * 1.3
      else if er > 3 then npUniform 0.20 0.40 u1 * 1.1
      else npUniform 0.20 0.40 u1) < 0.52 := by
    split_ifs <;> constructor <;> nlinarith
  obtain ⟨hrp, hrl⟩ := hrate
  have hreach_eq : (generate_reach_impressions f er u1 u2).1 =
      pyInt ((f : ℚ) * (if er > 5 then npUniform 0.20 0.40 u1 * 1.3
        else if er > 3 then npUniform 0.20 0.40 u1 * 1.1
        else npUniform 0.20 0.40 u1)) := rfl
  have himp_eq : (generate_reach_impressions f er u1 u2).2 =
      pyInt (((generate_reach_impressions f er u1 u2).1 : ℚ) *
        npUniform 1.2 1.8 u2) := rfl
  have hfpos : (0 : ℚ) < (f : ℚ) := by exact_mod_cast hf
  have hprod : (0 : ℚ) ≤ (f : ℚ) * _ := mul_nonneg hfpos.le hrp.le
  rw [hreach_eq, pyInt_eq_floor hprod] at *
  have hfloor_le := Int.floor_le ((f : ℚ) *
    (if er > 5 then npUniform 0.20 0.40 u1 * 1.3
     else if er > 3 then npUniform 0.20 0.40 u1 * 1.1
     else npUniform 0.20 0.40 u1))
  have hlt52 : (f : ℚ) * (if er > 5 then npUniform 0.20 0.40 u1 * 1.3
      else if er > 3 then npUniform 0.20 0.40 u1 * 1.1
      else npUniform 0.20 0.40 u1) < 0.52 * f := by nlinarith
  refine ⟨by linarith, ?_, ?_⟩
  · rw [Int.floor_lt]
    push_cast
    nlinarith
  · have hreach_nonneg : (0 : ℤ) ≤ ⌊(f : ℚ) *
        (if er > 5 then npUniform 0.20 0.40 u1 * 1.3
         else if er > 3 then npUniform 0.20 0.40 u1 * 1.1
         else npUniform 0.20 0.40 u1)⌋ := Int.floor_nonneg.mpr hprod
    have hr2 : (0 : ℚ) ≤ (((⌊(f : ℚ) *
        (if er > 5 then npUniform 0.20 0.40 u1 * 1.3
         else if er > 3 then npUniform 0.20 0.40 u1 * 1.1
         else npUniform 0.20 0.40 u1)⌋ : ℤ)) : ℚ) := by exact_mod_cast hreach_nonneg
    rw [himp_eq, pyInt_eq_floor (by nlinarith)]
    have := Int.floor_le ((((⌊(f : ℚ) *
        (if er > 5 then npUniform 0.20 0.40 u1 * 1.3
         else if er > 3 then npUniform 0.20 0.40 u1 * 1.1
         else npUniform 0.20 0.40 u1)⌋ : ℤ)) : ℚ) * npUniform 1.2 1.8 u2)
    nlinarith

theorem C10_reach_impressions_witness :
    (1 : ℕ) ≤ 1000 ∧
    ((generate_reach_impressions 1000 2 u0 u0).1 : ℚ) ≤ 0.52 * (1000 : ℕ) ∧
    (generate_reach_impressions 1000 2 u0 u0).1 < ((1000 : ℕ) : ℤ) ∧
    ((generate_reach_impressions 1000 2 u0 u0).2 : ℚ) ≤
      1.8 * ((generate_reach_impressions 1000 2 u0 u0).1 : ℚ) :=
  ⟨by norm_num, (C10_reach_impressions 1000 (by norm_num) 2 u0 u0).1,
   (C10_reach_impressions 1000 (by norm_num) 2 u0 u0).2.1,
   (C10_reach_impressions 1000 (by norm_num) 2 u0 u0).2.2⟩

/- ------------------------------------------------------------------ -/
/- C9: composite influencer score and performance segment             -/
/- ------------------------------------------------------------------ -/

/-- C9: every row of the scoring output satisfies the composite formula
0.25 * engagement_quality + 0.25 * authenticity + 0.30 * conversion +
0.15 * roi + 0.05 * brand_alignment, and the performance segment is
High Performer exactly when the composite is >= 75, Medium Performer
exactly when it is in [50, 75), and Low Performer exactly when it is
< 50. -/
theorem C9_influencer_score (pop : List InfAgg) (s : ScoredInf)
    (hs : s ∈ scoreInfluencers pop) :
    s.influencer_score =
      0.25 * s.engagement_quality_score + 0.25 * s.authenticity_score +
      0.30 * s.conversion_score + 0.15 * s.roi_score +
      0.05 * s.brand_alignment_score ∧
    (s.performance_segment = "High Performer" ↔ 75 ≤ s.influencer_score) ∧
    (s.performance_segment = "Medium Performer" ↔
      50 ≤ s.influencer_score ∧ s.influencer_score < 75) ∧
    (s.performance_segment = "Low Performer" ↔ s.influencer_score < 50) := by
  unfold scoreInfluencers at hs
  obtain ⟨r, _, rfl⟩ := List.mem_map.mp hs
  refine ⟨rfl, ?_, ?_, ?_⟩ <;>
  · simp only [ge_iff_le]
    split_ifs with h1 h2 <;>
      constructor <;>
      intro hx <;>
      first
        | linarith
        | constructor <;> linarith
        | (exfalso; revert hx; decide)

/- ------------------------------------------------------------------ -/
/- C2: determinism under a fixed seed                                 -/
/- ------------------------------------------------------------------ -/

theorem sampleCat_isSome {α : Type} :
    ∀ (l : List (α × ℚ)), l ≠ [] → ∀ u : ℚ, (sampleCat l u).isSome = true := by
  intro l
  induction l with
  | nil => intro h; exact absurd rfl h
  | cons a rest ih =>
    intro _ u
    cases rest with
    | nil =>
      obtain ⟨k, p⟩ := a
      simp [sampleCat]
    | cons b r =>
      obtain ⟨k, p⟩ := a
      rw [sampleCat]
      by_cases hu : u < p
      · rw [if_pos hu]; rfl
      · rw [if_neg hu]; exact ih (by simp) (u - p)

theorem npChoice_isSome {α : Type} (l : List α) (hne : l ≠ []) (u : U01) :
    (npChoice l u).isSome = true := by
  unfold npChoice
  have hlen : 0 < l.length := List.length_pos.mpr hne
  have hlenq : (0 : ℚ) < (l.length : ℚ) := by exact_mod_cast hlen
  have h1 : (⌊u.val * (l.length : ℚ)⌋).toNat < l.length := by
    have hub : u.val * (l.length : ℚ) < (l.length : ℚ) := by
      nlinarith [u01_lt_one u, u01_nonneg u]
    have h2 : ⌊u.val * (l.length : ℚ)⌋ < (l.length : ℤ) := by
      rw [Int.floor_lt]
      push_cast
      linarith
    omega
  rw [List.get?_eq_get h1]
  rfl

theorem brandTier_lookups {tier : String} (h : tier ∈ BRAND_TIERS.map Prod.fst) :
    (budgetRanges tier).isSome = true ∧ (BRAND_AOV tier).isSome = true := by
  simp [BRAND_TIERS] at h
  rcases h with rfl | rfl | rfl | rfl | rfl <;> exact ⟨rfl, rfl⟩

theorem genBrand_isSome (draws : ℕ → BrandDraws) (ent : ℕ → ℕ) (i : ℕ) :
    ∃ b, genBrand draws ent i = some b := by
  obtain ⟨tier, htier⟩ := Option.isSome_iff_exists.mp
    (sampleCat_isSome BRAND_TIERS (by simp [BRAND_TIERS]) (draws i).uTier.val)
  have hmem := sampleCat_mem BRAND_TIERS _ tier htier
  obtain ⟨hbud, haov⟩ := brandTier_lookups hmem
  obtain ⟨lohi, hlohi⟩ := Option.isSome_iff_exists.mp hbud
  obtain ⟨pre, hpre⟩ := Option.isSome_iff_exists.mp
    (npChoice_isSome brandNamePres (by simp [brandNamePres]) (draws i).uPre)
  obtain ⟨suf, hsuf⟩ := Option.isSome_iff_exists.mp
    (npChoice_isSome brandNameSufs (by simp [brandNameSufs]) (draws i).uSuf)
  obtain ⟨plat, hplat⟩ := Option.isSome_iff_exists.mp
    (sampleCat_isSome PLATFORM_DISTRIBUTION (by simp [PLATFORM_DISTRIBUTION])
      (draws i).uPlatform.val)
  have hprice_some : (generate_order_value tier (draws i).zAov).isSome = true := by
    unfold generate_order_value
    simpa using haov
  obtain ⟨price, hprice⟩ := Option.isSome_iff_exists.mp hprice_some
  obtain ⟨demo, hdemo⟩ := Option.isSome_iff_exists.mp
    (npChoice_isSome ["18-24", "25-34", "35-44", "25-44"] (by simp) (draws i).uDemo)
  have hs : (genBrand draws ent i).isSome = true := by
    unfold genBrand
    simp only [htier, hpre, hsuf, hlohi, hplat, hprice, hdemo,
      Option.bind_eq_bind, Option.some_bind, Option.pure_def, Option.isSome_some]
  exact Option.isSome_iff_exists.mp hs

theorem genBrand_brand_id (draws : ℕ → BrandDraws) (ent : ℕ → ℕ) (i : ℕ)
    (b : Brand) (h : genBrand draws ent i = some b) :
    b.brand_id = uuid4Str (ent i) := by
  unfold genBrand at h
  simp only [Option.bind_eq_bind, Option.bind_eq_some, Option.map_eq_some',
    Option.pure_def, Option.some.injEq] at h
  obtain ⟨tier, htier, pre, hpre, suf, hsuf, lohi, hlohi, plat, hplat, price,
    hprice, demo, hdemo, hb⟩ := h
  subst hb
  rfl

/-- C2 (refuting the determinism of the id columns): one generate_brands
row, run twice with the same numpy seed 42 but two different OS entropy
streams, produces two different brand_id cells — the id columns come from
uuid4(), which np.random.seed does not control, so two runs with the same
seed are not byte-identical. -/
theorem C2_seed_does_not_determine_ids :
    (genBrand (brandDrawsOfSeed 42) idEnt 0).map Brand.brand_id ≠
      (genBrand (brandDrawsOfSeed 42) shiftEnt 0).map Brand.brand_id := by
  obtain ⟨b1, h1⟩ := genBrand_isSome (brandDrawsOfSeed 42) idEnt 0
  obtain ⟨b2, h2⟩ := genBrand_isSome (brandDrawsOfSeed 42) shiftEnt 0
  rw [h1, h2]
  simp only [Option.map_some', ne_eq, Option.some.injEq]
  rw [genBrand_brand_id _ _ _ _ h1, genBrand_brand_id _ _ _ _ h2]
  decide


/- ------------------------------------------------------------------ -/
/- C3: is_sponsored iff brand_id present                              -/
/- ------------------------------------------------------------------ -/

theorem genPost_sponsored_iff (influencers : List Influencer)
    (brandIds : List String) (draws : ℕ → PostDraws) (ent : ℕ → ℕ) (i : ℕ)
    (p : Post) (h : genPost influencers brandIds draws ent i = some p) :
    (p.is_sponsored = true ↔ p.brand_id ≠ none) ∧
    ∀ b, p.brand_id = some b → b ∈ brandIds := by
  unfold genPost at h
  simp only [Option.bind_eq_bind, Option.bind_eq_some, Option.pure_def,
    Option.some.injEq] at h
  obtain ⟨inf, hinf, h⟩ := h
  obtain ⟨hd, hhd, h⟩ := h
  obtain ⟨ct, hct, h⟩ := h
  obtain ⟨om, hom, h⟩ := h
  obtain ⟨seas, hseas, h⟩ := h
  by_cases hcond : (draws i).uSponsored.val <
      (if inf.tier = "mid" ∨ inf.tier = "macro" ∨ inf.tier = "mega"
       then (0.25 : ℚ) else 0.10)
  · rw [if_pos hcond] at h
    cases hb : npChoice brandIds (draws i).uBrand with
    | none =>
      rw [hb] at h
      simp at h
    | some b =>
      rw [hb] at h
      cases hvis : sampleCat VISUAL_STYLES (draws i).uVisual.val with
      | none => rw [hvis] at h; simp at h
      | some vis =>
        rw [hvis] at h
        cases hcol : npChoice DOMINANT_COLORS (draws i).uColor with
        | none => rw [hcol] at h; simp at h
        | some col =>
          rw [hcol] at h
          simp only [Option.map_eq_map, Option.map_some', Option.some_bind,
            Option.some.injEq] at h
          subst h
          constructor
          · simp [hcond]
          · intro b' hb'
            simp only [Option.some.injEq] at hb'
            subst hb'
            exact npChoice_mem hb
  · rw [if_neg hcond] at h
    cases hvis : sampleCat VISUAL_STYLES (draws i).uVisual.val with
    | none => rw [hvis] at h; simp at h
    | some vis =>
      rw [hvis] at h
      cases hcol : npChoice DOMINANT_COLORS (draws i).uColor with
      | none => rw [hcol] at h; simp at h
      | some col =>
        rw [hcol] at h
        simp only [Option.some_bind, Option.some.injEq] at h
        subst h
        constructor
        · simp [hcond]
        · intro b' hb'
          cases hb'

/-- C3: for every row produced by generate_posts, is_sponsored is true if
and only if brand_id is non-null, and every sponsored post's brand id is
drawn from the given brand table's id list. -/
theorem C3_sponsored_iff_brand (influencers : List Influencer)
    (brandIds : List String) (draws : ℕ → PostDraws) (ent : ℕ → ℕ) (n : ℕ)
    (ps : List Post) (h : generatePosts influencers brandIds draws ent n = some ps)
    (p : Post) (hp : p ∈ ps) :
    (p.is_sponsored = true ↔ p.brand_id ≠ none) ∧
    ∀ b, p.brand_id = some b → b ∈ brandIds := by
  obtain ⟨i, _, hi⟩ := mapM_option_mem _ _ _ h p hp
  exact genPost_sponsored_iff influencers brandIds draws ent i p hi

theorem u0_val : u0.val = 0 := rfl

theorem generatePosts_sample_eval :
    generatePosts [sampleInfluencer] ["b0"] zeroPostDraws idEnt 1 =
      some [c4Post] := by
  have hInf : npChoice [sampleInfluencer] u0 = some sampleInfluencer := by
    simp [npChoice, u0_val]
  have hB : npChoice ["b0"] u0 = some "b0" := by
    simp [npChoice, u0_val]
  have hTime : generate_post_time u0 u0 = some (6, 0) := by
    norm_num [generate_post_time, sampleCat, POSTING_TIME_DISTRIBUTION,
      DAY_OF_WEEK_DISTRIBUTION, u0_val]
  have hCt : sampleCat (CONTENT_TYPE_BY_PLATFORM "Instagram") 0 =
      some "photo" := by
    norm_num [CONTENT_TYPE_BY_PLATFORM, sampleCat]
  have hOut : generate_outlier_probability "nano" u0 u0 = some 0.3 := by
    norm_num [generate_outlier_probability, sampleCat, u0_val]
  have hEng : generate_engagement_metrics 1000 (3.5 * 0.90) "photo" false
      u0 u0 u0 u0 u0 u0 = ⟨17, 0, 0, 0⟩ := by
    norm_num [generate_engagement_metrics, npUniform, pyInt, u0_val,
      Int.floor_eq_iff,
      (show ("photo" = "product_shot" ∨ "photo" = "carousel") = False from
        by simp)]
  have hRi : generate_reach_impressions 1000 3.5 u0 u0 = (220, 264) := by
    norm_num [generate_reach_impressions, npUniform, pyInt, u0_val,
      Int.floor_eq_iff]
  have hCap : generate_caption_length 0 = 180 := by
    norm_num [generate_caption_length, npNormalQ, pyInt, npClip,
      Int.floor_eq_iff]
  have hHash : generate_hashtag_count "Instagram" 0 u0 = 8 := by
    norm_num [generate_hashtag_count, npNormalQ, pyInt, npClip,
      Int.floor_eq_iff]
  have hDate : npRandint 0 (DATE_END_DAY - DATE_START_DAY) u0 = 0 := by
    norm_num [npRandint, u0_val, DATE_END_DAY, DATE_START_DAY]
  have hVis : sampleCat VISUAL_STYLES 0 = some "lifestyle" := by
    norm_num [VISUAL_STYLES, sampleCat]
  have hCol : npChoice DOMINANT_COLORS u0 = some "neutral_beige" := by
    simp [npChoice, u0_val, DOMINANT_COLORS]
  have hMonth : monthOfDay DATE_START_DAY = 2 := rfl
  have hSeas : MONTHLY_SEASONALITY 2 = some 0.90 := rfl
  have hPlat : sampleInfluencer.platform = "Instagram" := rfl
  have hTier : sampleInfluencer.tier = "nano" := rfl
  have hFC : sampleInfluencer.follower_count = 1000 := rfl
  have hER : sampleInfluencer.engagement_rate = 3.5 := rfl
  have hIId : sampleInfluencer.influencer_id = "inf0" := rfl
  have hViral : (decide ((0.3 : ℚ) > 2)) = false :=
    decide_eq_false (by norm_num)
  rw [generatePosts, show List.range 1 = [0] from rfl, List.mapM_cons,
    List.mapM_nil]
  simp only [genPost, zeroPostDraws, idEnt, hInf, hTime, hCt, hOut, hEng, hRi,
    hCap, hHash, hDate, hVis, hCol, hMonth, hSeas, hPlat, hTier, hFC, hER,
    hIId, hViral, hB, u0_val, add_zero,
    (show ("nano" = "mid" ∨ "nano" = "macro" ∨ "nano" = "mega") = False from
      by simp),
    (show ((0 : ℚ) < 0.10) = True from by norm_num),
    (show (decide ((0 : ℚ) < 0.10)) = true from decide_eq_true (by norm_num)),
    (show (decide ((0 : ℚ) < 0.30)) = true from decide_eq_true (by norm_num)),
    (show (decide ((0 : ℚ) < 0.45)) = true from decide_eq_true (by norm_num)),
    if_true, if_false, ite_true, ite_false, Bool.true_and,
    Option.some_bind, Option.bind_eq_bind, Option.map_eq_map,
    Option.map_some', Option.pure_def]
  norm_num [c4Post, uuid4Str, DATE_START_DAY]
  rfl

theorem C3_sponsored_iff_brand_witness :
    generatePosts [sampleInfluencer] ["b0"] zeroPostDraws idEnt 1 =
      some [c4Post] ∧
    c4Post ∈ [c4Post] ∧
    (c4Post.is_sponsored = true ↔ c4Post.brand_id ≠ none) ∧
    ∀ b, c4Post.brand_id = some b → b ∈ ["b0"] := by
  refine ⟨generatePosts_sample_eval, by simp, ?_, ?_⟩
  · exact (C3_sponsored_iff_brand _ _ _ _ _ _ generatePosts_sample_eval
      c4Post (by simp)).1
  · exact (C3_sponsored_iff_brand _ _ _ _ _ _ generatePosts_sample_eval
      c4Post (by simp)).2

/- ------------------------------------------------------------------ -/
/- C4: conversion dates versus the referenced post                    -/
/- ------------------------------------------------------------------ -/

theorem journey_bounds (e : ℚ) :
    1 ≤ generate_customer_journey_length e ∧
    generate_customer_journey_length e ≤ 90 :=
  npClip_bounds _ (by norm_num)

theorem genConversion_date_bounds (brands : List Brand)
    (sponsoredPosts : List Post) (draws : ℕ → ConvDraws) (ent : ℕ → ℕ) (i : ℕ)
    (c : Conversion) (h : genConversion brands sponsoredPosts draws ent i = some c)
    (pid : String) (hpid : c.post_id = some pid) :
    1 ≤ c.customer_journey_length ∧ c.customer_journey_length ≤ 90 ∧
    c.conversion_date ≤ DATE_END_DAY ∧
    ∃ p ∈ sponsoredPosts, p.post_id = pid ∧
      (p.post_date ≤ DATE_END_DAY → p.post_date ≤ c.conversion_date) ∧
      c.conversion_date ≤ p.post_date + c.customer_journey_length := by
  unfold genConversion at h
  simp only [Option.bind_eq_bind, Option.bind_eq_some, Option.pure_def,
    Option.some.injEq] at h
  obtain ⟨fields, hfields, bt, hbt, at', hat, us, hus, um, hum, ov, hov, cat,
    hcat, hc⟩ := h
  subst hc
  simp only [Option.some.injEq] at hpid
  obtain ⟨hj1, hj2⟩ := journey_bounds (draws i).eJourney
  by_cases hcond : (draws i).uHasAttr.val < 0.65 ∧ 0 < sponsoredPosts.length
  · rw [if_pos hcond] at hfields
    cases hpost : npChoice sponsoredPosts (draws i).uPost with
    | none => rw [hpost] at hfields; simp at hfields
    | some post =>
      rw [hpost] at hfields
      simp only [Option.map_some', Option.some.injEq] at hfields
      subst hfields
      simp only [Option.some.injEq] at hpid
      refine ⟨hj1, hj2, min_le_right _ _, post, npChoice_mem hpost,
        hpid, ?_, min_le_left _ _⟩
      intro hwin
      exact le_min (by linarith) hwin
  · rw [if_neg hcond] at hfields
    cases hbrand : npChoice (brands.map Brand.brand_id) (draws i).uBrand with
    | none => rw [hbrand] at hfields; simp at hfields
    | some bid =>
      rw [hbrand] at hfields
      simp only [Option.map_some', Option.some.injEq] at hfields
      subst hfields
      simp at hpid

theorem genPost_date_window (influencers : List Influencer)
    (brandIds : List String) (draws : ℕ → PostDraws) (ent : ℕ → ℕ) (i : ℕ)
    (p : Post) (h : genPost influencers brandIds draws ent i = some p) :
    DATE_START_DAY ≤ p.post_date ∧ p.post_date < DATE_END_DAY := by
  have hr := @npRandint_bounds 0 (DATE_END_DAY - DATE_START_DAY)
    ((draws i).uDate) (by norm_num [DATE_START_DAY, DATE_END_DAY])
  unfold genPost at h
  simp only [Option.bind_eq_bind, Option.bind_eq_some, Option.pure_def,
    Option.some.injEq] at h
  obtain ⟨inf, hinf, h⟩ := h
  obtain ⟨hd, hhd, h⟩ := h
  obtain ⟨ct, hct, h⟩ := h
  obtain ⟨om, hom, h⟩ := h
  obtain ⟨seas, hseas, h⟩ := h
  by_cases hcond : (draws i).uSponsored.val <
      (if inf.tier = "mid" ∨ inf.tier = "macro" ∨ inf.tier = "mega"
       then (0.25 : ℚ) else 0.10)
  · rw [if_pos hcond] at h
    cases hb : npChoice brandIds (draws i).uBrand with
    | none => rw [hb] at h; simp at h
    | some b =>
      rw [hb] at h
      cases hvis : sampleCat VISUAL_STYLES (draws i).uVisual.val with
      | none => rw [hvis] at h; simp at h
      | some vis =>
        rw [hvis] at h
        cases hcol : npChoice DOMINANT_COLORS (draws i).uColor with
        | none => rw [hcol] at h; simp at h
        | some col =>
          rw [hcol] at h
          simp only [Option.map_eq_map, Option.map_some', Option.some_bind,
            Option.some.injEq] at h
          subst h
          exact ⟨by simp only; omega, by simp only; omega⟩
  · rw [if_neg hcond] at h
    cases hvis : sampleCat VISUAL_STYLES (draws i).uVisual.val with
    | none => rw [hvis] at h; simp at h
    | some vis =>
      rw [hvis] at h
      cases hcol : npChoice DOMINANT_COLORS (draws i).uColor with
      | none => rw [hcol] at h; simp at h
      | some col =>
        rw [hcol] at h
        simp only [Option.some_bind, Option.some.injEq] at h
        subst h
        exact ⟨by simp only; omega, by simp only; omega⟩

/-- C4: every conversion produced by generate_conversions that carries a
non-null post reference satisfies post_date <= conversion_date <=
post_date + customer_journey_length, the conversion date is capped at the
window end DATE_END, and the journey length lies in [1, 90]. -/
theorem C4_conversion_date_bounds (influencers : List Influencer)
    (brandIds : List String) (pdraws : ℕ → PostDraws) (pent : ℕ → ℕ) (np : ℕ)
    (brands : List Brand) (cdraws : ℕ → ConvDraws) (cent : ℕ → ℕ) (nc : ℕ)
    (ps : List Post)
    (hps : generatePosts influencers brandIds pdraws pent np = some ps)
    (convs : List Conversion)
    (hcs : generateConversions brands (ps.filter fun p => p.is_sponsored)
      cdraws cent nc = some convs)
    (c : Conversion) (hc : c ∈ convs) (pid : String)
    (hpid : c.post_id = some pid) :
    1 ≤ c.customer_journey_length ∧ c.customer_journey_length ≤ 90 ∧
    c.conversion_date ≤ DATE_END_DAY ∧
    ∃ p ∈ ps, p.is_sponsored = true ∧ p.post_id = pid ∧
      p.post_date ≤ c.conversion_date ∧
      c.conversion_date ≤ p.post_date + c.customer_journey_length := by
  obtain ⟨i, _, hi⟩ := mapM_option_mem _ _ _ hcs c hc
  obtain ⟨hj1, hj2, hcap, p, hpmem, hppid, hge, hle⟩ :=
    genConversion_date_bounds _ _ _ _ _ _ hi pid hpid
  rw [List.mem_filter] at hpmem
  obtain ⟨hpin, hsp⟩ := hpmem
  obtain ⟨j, _, hj⟩ := mapM_option_mem _ _ _ hps p hpin
  have hwin := genPost_date_window _ _ _ _ _ _ hj
  exact ⟨hj1, hj2, hcap, p, hpin, by simpa using hsp, hppid,
    hge hwin.2.le, hle⟩

theorem generateConversions_sample_eval :
    generateConversions [sampleBrand] [c4Post] zeroConvDraws idEnt 1 =
      some [c4Conv] := by
  have hPC : npChoice [c4Post] u0 = some c4Post := by simp [npChoice, u0_val]
  have hJr : generate_customer_journey_length 1 = 7 := by
    norm_num [generate_customer_journey_length, pyInt, npClip, Int.floor_eq_iff]
  have hBT : resolveBrandTier [sampleBrand] (some "b0") = some "Luxury" := rfl
  have hAT : sampleCat attributionTypeDist 0 = some "first_touch" := by
    norm_num [attributionTypeDist, sampleCat]
  have hUS : npChoice ["instagram", "tiktok", "youtube", "twitter", "direct",
      "organic"] u0 = some "instagram" := by simp [npChoice, u0_val]
  have hUM : npChoice ["social", "influencer", "organic", "paid"] u0 =
      some "social" := by simp [npChoice, u0_val]
  obtain ⟨v, hOV⟩ : ∃ v, generate_order_value "Luxury" 0 = some v := ⟨_, rfl⟩
  have hv : (generate_order_value "Luxury" 0).getD 0 = v := by rw [hOV]; rfl
  have hCat : npChoice productCategories u0 = some "Clothing" := by
    simp [npChoice, u0_val, productCategories]
  have hTC : generate_touchpoints_count 1 = 1 := by
    norm_num [generate_touchpoints_count, pyInt, npClip, Int.floor_eq_iff]
  have hP1 : c4Post.post_id = "uuid-0" := rfl
  have hP2 : c4Post.influencer_id = "inf0" := rfl
  have hP3 : c4Post.brand_id = some "b0" := rfl
  have hP4 : c4Post.post_date = 0 := rfl
  rw [generateConversions, show List.range 1 = [0] from rfl, List.mapM_cons,
    List.mapM_nil]
  simp only [genConversion, zeroConvDraws, idEnt, u0_val,
    List.length_singleton]
  rw [if_pos (show (0 : ℚ) < 0.65 ∧ 0 < 1 by norm_num)]
  simp only [hPC, hJr, hBT, hAT, hUS, hUM, hOV, hCat, hTC, hP1, hP2, hP3, hP4,
    Option.map_some', Option.some_bind, Option.bind_eq_bind, Option.pure_def,
    (show (decide ((0 : ℚ) < 0.40)) = true from decide_eq_true (by norm_num))]
  norm_num [c4Conv, uuid4Str, DATE_END_DAY, DATE_START_DAY, hv]
  exact ⟨rfl, rfl⟩

theorem C4_conversion_date_bounds_witness :
    generatePosts [sampleInfluencer] ["b0"] zeroPostDraws idEnt 1 =
      some [c4Post] ∧
    generateConversions [sampleBrand]
      ([c4Post].filter fun p => p.is_sponsored) zeroConvDraws idEnt 1 =
      some [c4Conv] ∧
    c4Conv.post_id = some "uuid-0" ∧
    (1 ≤ c4Conv.customer_journey_length ∧
     c4Conv.customer_journey_length ≤ 90 ∧
     c4Conv.conversion_date ≤ DATE_END_DAY ∧
     ∃ p ∈ [c4Post], p.is_sponsored = true ∧ p.post_id = "uuid-0" ∧
       p.post_date ≤ c4Conv.conversion_date ∧
       c4Conv.conversion_date ≤ p.post_date + c4Conv.customer_journey_length) := by
  have hfe : [c4Post].filter (fun p => p.is_sponsored) = [c4Post] := rfl
  have hcs : generateConversions [sampleBrand]
      ([c4Post].filter fun p => p.is_sponsored) zeroConvDraws idEnt 1 =
      some [c4Conv] := by
    rw [hfe]
    exact generateConversions_sample_eval
  refine ⟨generatePosts_sample_eval, hcs, rfl, ?_⟩
  exact C4_conversion_date_bounds [sampleInfluencer] ["b0"] zeroPostDraws
    idEnt 1 [sampleBrand] zeroConvDraws idEnt 1 [c4Post]
    generatePosts_sample_eval [c4Conv] hcs c4Conv (by simp) "uuid-0" rfl

/- ------------------------------------------------------------------ -/
/- C5 and C6: touchpoint dates, weights and conversion references     -/
/- ------------------------------------------------------------------ -/

theorem round3_bounds {x : ℚ} (h1 : 0.05 ≤ x) (h2 : x ≤ 0.40) :
    0.05 ≤ pyRound3 x ∧ pyRound3 x ≤ 0.40 := by
  unfold pyRound3
  have hlo : (50 : ℤ) ≤ round (x * 1000) := by
    have h := round_mono_int (show (0.05 : ℚ) * 1000 ≤ x * 1000 by nlinarith)
    rw [show (0.05 : ℚ) * 1000 = ((50 : ℤ) : ℚ) by norm_num, round_intCast] at h
    exact h
  have hhi : round (x * 1000) ≤ (400 : ℤ) := by
    have h := round_mono_int (show x * 1000 ≤ (0.40 : ℚ) * 1000 by nlinarith)
    rw [show (0.40 : ℚ) * 1000 = ((400 : ℤ) : ℚ) by norm_num, round_intCast] at h
    exact h
  have hloq : ((50 : ℤ) : ℚ) ≤ ((round (x * 1000) : ℤ) : ℚ) := by
    exact_mod_cast hlo
  have hhiq : ((round (x * 1000) : ℤ) : ℚ) ≤ ((400 : ℤ) : ℚ) := by
    exact_mod_cast hhi
  constructor <;> push_cast at hloq hhiq ⊢ <;> linarith

theorem genTouchpoint_props (convs : List Conversion) (posts : List Post)
    (draws : ℕ → TouchDraws) (ent : ℕ → ℕ) (i : ℕ) (t : Touchpoint)
    (h : genTouchpoint convs posts draws ent i = some t) :
    (∀ cid, t.conversion_id = some cid →
      t.contributed_to_conversion = true ∧
      0.05 ≤ t.attribution_weight ∧ t.attribution_weight ≤ 0.40 ∧
      ∃ c ∈ convs, c.conversion_id = cid ∧ t.post_id = c.post_id ∧
        t.touchpoint_date ≤ c.conversion_date ∧
        c.conversion_date - max 1 c.customer_journey_length <
          t.touchpoint_date) ∧
    (convs ≠ [] → (t.conversion_id ≠ none ↔
      t.contributed_to_conversion = true)) ∧
    (t.contributed_to_conversion = false → t.attribution_weight = 0) := by
  unfold genTouchpoint at h
  simp only [Option.bind_eq_bind] at h
  by_cases hcond : (draws i).uLeads.val < 0.30 ∧ 0 < convs.length
  · obtain ⟨hlead, hlen⟩ := hcond
    rw [if_pos ⟨hlead, hlen⟩] at h
    cases hcc : npChoice convs (draws i).uConv with
    | none => rw [hcc] at h; simp at h
    | some conversion =>
      rw [hcc] at h
      simp only [Option.map_some', Option.some_bind, Option.bind_eq_some,
        Option.pure_def, Option.some.injEq] at h
      obtain ⟨plat, hplat, tt, htt, ht⟩ := h
      subst ht
      have hdays := @npRandint_bounds 0
        (max 1 conversion.customer_journey_length) ((draws i).uDaysBefore)
        (by omega)
      obtain ⟨hw1, hw2⟩ := round3_bounds
        (npUniform_bounds (draws i).uWeight (by norm_num)).1
        (le_of_lt (npUniform_lt (draws i).uWeight (by norm_num)))
      refine ⟨?_, ?_, ?_⟩
      · intro cid hcid
        simp only [Option.some.injEq] at hcid
        refine ⟨by simp [hlead], by simpa [hlead] using hw1,
          by simpa [hlead] using hw2, conversion, npChoice_mem hcc,
          hcid, rfl, by simp only; omega, by simp only; omega⟩
      · intro _
        simp [hlead]
      · intro hfalse
        simp [hlead] at hfalse
  · rw [if_neg hcond] at h
    by_cases hpp : (draws i).uHasPost.val < 0.7
    · rw [if_pos hpp] at h
      cases hpc : npChoice posts (draws i).uPost with
      | none => rw [hpc] at h; simp at h
      | some p =>
        rw [hpc] at h
        simp only [Option.map_some', Option.some_bind, Option.bind_eq_some,
          Option.pure_def, Option.some.injEq] at h
        obtain ⟨plat, hplat, tt, htt, ht⟩ := h
        subst ht
        refine ⟨?_, ?_, ?_⟩
        · intro cid hcid
          cases hcid
        · intro hne
          have hlead : ¬ (draws i).uLeads.val < 0.30 :=
            fun hl => hcond ⟨hl, List.length_pos.mpr hne⟩
          simp [hlead]
        · intro hf
          by_cases hlead : (draws i).uLeads.val < 0.30
          · simp [hlead] at hf
          · show (if (draws i).uLeads.val < 0.30 then
                pyRound3 (npUniform 0.05 0.40 (draws i).uWeight)
              else 0.0) = 0
            rw [if_neg hlead]
            norm_num
    · rw [if_neg hpp] at h
      simp only [Option.map_some', Option.some_bind, Option.bind_eq_some,
        Option.pure_def, Option.some.injEq] at h
      obtain ⟨plat, hplat, tt, htt, ht⟩ := h
      subst ht
      refine ⟨?_, ?_, ?_⟩
      · intro cid hcid
        cases hcid
      · intro hne
        have hlead : ¬ (draws i).uLeads.val < 0.30 :=
          fun hl => hcond ⟨hl, List.length_pos.mpr hne⟩
        simp [hlead]
      · intro hf
        by_cases hlead : (draws i).uLeads.val < 0.30
        · simp [hlead] at hf
        · show (if (draws i).uLeads.val < 0.30 then
              pyRound3 (npUniform 0.05 0.40 (draws i).uWeight)
            else 0.0) = 0
          rw [if_neg hlead]
          norm_num

theorem generateTouchpoints_c5_eval :
    generateTouchpoints [c5Conv] [] c5TouchDraws idEnt 1 =
      some [c5Expected] := by
  rw [generateTouchpoints, show List.range 1 = [0] from rfl, List.mapM_cons,
    List.mapM_nil]
  simp only [genTouchpoint, c5TouchDraws, c5Conv, c5Expected, npChoice,
    npRandint, npUniform, sampleCat, touchpointTypeDist, pyRound3, u0, u07,
    uuid4Str, idEnt, DATE_END_DAY, DATE_START_DAY, resolvePlatform]
  norm_num [round_eq, Int.floor_eq_iff]
  rfl

theorem generateTouchpoints_c6_eval :
    generateTouchpoints [] [] c5TouchDraws idEnt 1 = some [c6Expected] := by
  rw [generateTouchpoints, show List.range 1 = [0] from rfl, List.mapM_cons,
    List.mapM_nil]
  simp only [genTouchpoint, c5TouchDraws, c6Expected, npChoice, npRandint,
    npUniform, sampleCat, touchpointTypeDist, pyRound3, u0, u07, uuid4Str,
    idEnt, DATE_END_DAY, DATE_START_DAY, resolvePlatform]
  norm_num [round_eq, Int.floor_eq_iff]
  exact ⟨rfl, rfl⟩

/-- C5 (amended): every touchpoint linked to a conversion has its date on
or before that conversion's date — within the journey window, strictly
after conversion_date - max(1, journey_length) — but not always strictly
before it: the uniform days-before draw may be zero. -/
theorem C5_touchpoint_within_journey_window (convs : List Conversion)
    (posts : List Post) (draws : ℕ → TouchDraws) (ent : ℕ → ℕ) (n : ℕ)
    (ts : List Touchpoint)
    (h : generateTouchpoints convs posts draws ent n = some ts)
    (t : Touchpoint) (ht : t ∈ ts) (cid : String)
    (hcid : t.conversion_id = some cid) :
    ∃ c ∈ convs, c.conversion_id = cid ∧ t.post_id = c.post_id ∧
      t.touchpoint_date ≤ c.conversion_date ∧
      c.conversion_date - max 1 c.customer_journey_length <
        t.touchpoint_date := by
  obtain ⟨i, _, hi⟩ := mapM_option_mem _ _ _ h t ht
  exact ((genTouchpoint_props _ _ _ _ _ _ hi).1 cid hcid).2.2.2

/-- C5 counterexample: a concrete generate_touchpoints run (journey length
5, days_before draw 0) produces a touchpoint linked to conversion c0 whose
date equals — is not strictly before — the conversion's date. -/
theorem C5_strictly_before_counterexample :
    generateTouchpoints [c5Conv] [] c5TouchDraws idEnt 1 =
      some [c5Expected] ∧
    c5Expected.conversion_id = some c5Conv.conversion_id ∧
    c5Expected.touchpoint_date = c5Conv.conversion_date ∧
    ¬ c5Expected.touchpoint_date < c5Conv.conversion_date := by
  refine ⟨generateTouchpoints_c5_eval, rfl, rfl, by norm_num [c5Expected, c5Conv]⟩

theorem C5_touchpoint_within_journey_window_witness :
    generateTouchpoints [c5Conv] [] c5TouchDraws idEnt 1 =
      some [c5Expected] ∧
    c5Expected.conversion_id = some "c0" ∧
    ∃ c ∈ [c5Conv], c.conversion_id = "c0" ∧
      c5Expected.post_id = c.post_id ∧
      c5Expected.touchpoint_date ≤ c.conversion_date ∧
      c.conversion_date - max 1 c.customer_journey_length <
        c5Expected.touchpoint_date := by
  refine ⟨generateTouchpoints_c5_eval, rfl, ?_⟩
  exact C5_touchpoint_within_journey_window [c5Conv] [] c5TouchDraws idEnt 1
    [c5Expected] generateTouchpoints_c5_eval c5Expected (by simp) "c0" rfl

/-- C6 (amended): provided the conversions-with-posts table is non-empty,
every generated touchpoint has a non-null conversion reference exactly
when contributed_to_conversion is true; unconditionally, a touchpoint with
a non-null reference is contributed with weight in [0.05, 0.40], a
non-contributed touchpoint has weight exactly 0, and under the non-empty
proviso a contributed touchpoint's weight lies in [0.05, 0.40].  (Without
the proviso the iff fails: with no conversions to link, a touchpoint can
be contributed with positive weight but a null reference.) -/
theorem C6_attribution_weight_iff_contributed (convs : List Conversion)
    (posts : List Post) (draws : ℕ → TouchDraws) (ent : ℕ → ℕ) (n : ℕ)
    (ts : List Touchpoint)
    (h : generateTouchpoints convs posts draws ent n = some ts)
    (t : Touchpoint) (ht : t ∈ ts) :
    (∀ cid, t.conversion_id = some cid →
      t.contributed_to_conversion = true ∧
      0.05 ≤ t.attribution_weight ∧ t.attribution_weight ≤ 0.40) ∧
    (t.contributed_to_conversion = false → t.attribution_weight = 0) ∧
    (convs ≠ [] →
      ((t.conversion_id ≠ none ↔ t.contributed_to_conversion = true) ∧
       (t.contributed_to_conversion = true →
         0.05 ≤ t.attribution_weight ∧ t.attribution_weight ≤ 0.40))) := by
  obtain ⟨i, _, hi⟩ := mapM_option_mem _ _ _ h t ht
  obtain ⟨h1, h2, h3⟩ := genTouchpoint_props _ _ _ _ _ _ hi
  refine ⟨fun cid hcid => ⟨(h1 cid hcid).1, (h1 cid hcid).2.1,
    (h1 cid hcid).2.2.1⟩, h3, fun hne => ⟨h2 hne, fun hcon => ?_⟩⟩
  obtain ⟨cid, hcid⟩ := Option.ne_none_iff_exists'.mp ((h2 hne).mpr hcon)
  exact ⟨(h1 cid hcid).2.1, (h1 cid hcid).2.2.1⟩

/-- C6 counterexample: run over an empty conversions-with-posts table with
a leads-to-conversion draw below 0.30: the touchpoint has
contributed_to_conversion true and a positive attribution weight, yet a
null conversion reference — refuting the unconditioned biconditional and
the "weight 0 otherwise" clause. -/
theorem C6_counterexample :
    generateTouchpoints [] [] c5TouchDraws idEnt 1 = some [c6Expected] ∧
    c6Expected.contributed_to_conversion = true ∧
    c6Expected.conversion_id = none ∧
    c6Expected.attribution_weight ≠ 0 := by
  refine ⟨generateTouchpoints_c6_eval, rfl, rfl, by norm_num [c6Expected]⟩

theorem C6_attribution_weight_iff_contributed_witness :
    generateTouchpoints [c5Conv] [] c5TouchDraws idEnt 1 =
      some [c5Expected] ∧
    ([c5Conv] : List Conversion) ≠ [] ∧
    (∀ cid, c5Expected.conversion_id = some cid →
      c5Expected.contributed_to_conversion = true ∧
      0.05 ≤ c5Expected.attribution_weight ∧
      c5Expected.attribution_weight ≤ 0.40) ∧
    (c5Expected.conversion_id ≠ none ↔
      c5Expected.contributed_to_conversion = true) := by
  refine ⟨generateTouchpoints_c5_eval, by simp, ?_, ?_⟩
  · exact (C6_attribution_weight_iff_contributed [c5Conv] [] c5TouchDraws
      idEnt 1 [c5Expected] generateTouchpoints_c5_eval c5Expected (by simp)).1
  · exact ((C6_attribution_weight_iff_contributed [c5Conv] [] c5TouchDraws
      idEnt 1 [c5Expected] generateTouchpoints_c5_eval c5Expected
      (by simp)).2.2 (by simp)).1

theorem tier_ranges_wf {tier : String} {lo hi : ℕ}
    (h : TIER_FOLLOWER_RANGES tier = some (lo, hi)) : 1 ≤ lo ∧ lo < hi := by
  unfold TIER_FOLLOWER_RANGES at h
  split at h <;> simp_all <;> omega

theorem tier_ranges_total {tier : String}
    (h : tier ∈ ["nano", "micro", "mid", "macro", "mega"]) :
    ∃ lo hi, TIER_FOLLOWER_RANGES tier = some (lo, hi) := by
  fin_cases h <;> exact ⟨_, _, rfl⟩

theorem follower_floor_bounds {lo hi : ℕ} (u : U01) (h1 : 1 ≤ lo)
    (h2 : lo < hi) :
    (lo : ℤ) ≤ pyIntR (Real.exp (npUniformR (Real.log (lo : ℝ))
        (Real.log (hi : ℝ)) u)) ∧
      pyIntR (Real.exp (npUniformR (Real.log (lo : ℝ)) (Real.log (hi : ℝ)) u))
        < (hi : ℤ) := by
  have hlo0 : (0 : ℝ) < (lo : ℝ) := by exact_mod_cast Nat.lt_of_lt_of_le Nat.zero_lt_one h1
  have hhi0 : (0 : ℝ) < (hi : ℝ) := lt_trans hlo0 (by exact_mod_cast h2)
  have hlog : Real.log (lo : ℝ) < Real.log (hi : ℝ) :=
    Real.log_lt_log hlo0 (by exact_mod_cast h2)
  have hu0 : (0 : ℝ) ≤ ((u.val : ℚ) : ℝ) := by exact_mod_cast u01_nonneg u
  have hu1 : ((u.val : ℚ) : ℝ) < 1 := by exact_mod_cast u01_lt_one u
  have hx1 : Real.log (lo : ℝ) ≤ npUniformR (Real.log (lo : ℝ)) (Real.log (hi : ℝ)) u := by
    unfold npUniformR
    nlinarith
  have hx2 : npUniformR (Real.log (lo : ℝ)) (Real.log (hi : ℝ)) u < Real.log (hi : ℝ) := by
    unfold npUniformR
    nlinarith
  have e1 : (lo : ℝ) ≤ Real.exp (npUniformR (Real.log (lo : ℝ)) (Real.log (hi : ℝ)) u) := by
    calc (lo : ℝ) = Real.exp (Real.log (lo : ℝ)) := (Real.exp_log hlo0).symm
    _ ≤ _ := Real.exp_le_exp.mpr hx1
  have e2 : Real.exp (npUniformR (Real.log (lo : ℝ)) (Real.log (hi : ℝ)) u) < (hi : ℝ) := by
    calc Real.exp _ < Real.exp (Real.log (hi : ℝ)) := Real.exp_lt_exp.mpr hx2
    _ = (hi : ℝ) := Real.exp_log hhi0
  have hpos : (0 : ℝ) ≤ Real.exp (npUniformR (Real.log (lo : ℝ)) (Real.log (hi : ℝ)) u) :=
    (Real.exp_pos _).le
  unfold pyIntR
  rw [if_pos hpos]
  constructor
  · exact Int.le_floor.mpr (by exact_mod_cast e1)
  · exact Int.floor_lt.mpr (by exact_mod_cast e2)

theorem generate_follower_count_bounds {tier : String} {lo hi : ℕ} {u : U01}
    {f : ℤ} (hr : TIER_FOLLOWER_RANGES tier = some (lo, hi))
    (hf : generate_follower_count tier u = some f) :
    (lo : ℤ) ≤ f ∧ f < (hi : ℤ) := by
  unfold generate_follower_count at hf
  rw [hr] at hf
  simp only [Option.map_some', Option.some.injEq] at hf
  obtain ⟨h1, h2⟩ := tier_ranges_wf hr
  subst hf
  exact follower_floor_bounds u h1 h2

theorem generate_engagement_rate_bounds {tier : String} {z : ℚ} {u : U01}
    {b : Bool} {r : ℚ} (h : generate_engagement_rate tier z u b = some r) :
    0.5 ≤ r ∧ r ≤ 12.0 := by
  unfold generate_engagement_rate at h
  cases hms : TIER_ENGAGEMENT_RATES tier with
  | none => rw [hms] at h; cases h
  | some ms =>
    rw [hms] at h
    simp only [Option.map_some', Option.some.injEq] at h
    subst h
    exact npClip_bounds _ (by norm_num)

theorem round2_engagement_bounds {x : ℚ} (h1 : 0.5 ≤ x) (h2 : x ≤ 12.0) :
    0.5 ≤ pyRound2 x ∧ pyRound2 x ≤ 12.0 := by
  unfold pyRound2
  have hlo : (50 : ℤ) ≤ round (x * 100) := by
    have h := round_mono_int (show (0.5 : ℚ) * 100 ≤ x * 100 by nlinarith)
    rw [show (0.5 : ℚ) * 100 = ((50 : ℤ) : ℚ) by norm_num, round_intCast] at h
    exact h
  have hhi : round (x * 100) ≤ (1200 : ℤ) := by
    have h := round_mono_int (show x * 100 ≤ (12.0 : ℚ) * 100 by nlinarith)
    rw [show (12.0 : ℚ) * 100 = ((1200 : ℤ) : ℚ) by norm_num, round_intCast] at h
    exact h
  have hloq : ((50 : ℤ) : ℚ) ≤ ((round (x * 100) : ℤ) : ℚ) := by exact_mod_cast hlo
  have hhiq : ((round (x * 100) : ℤ) : ℚ) ≤ ((1200 : ℤ) : ℚ) := by exact_mod_cast hhi
  constructor <;> push_cast at hloq hhiq ⊢ <;> linarith

/-- C7: every generated influencer has tier in {nano, micro, mid, macro,
mega}, a follower count inside that tier's configured [low, high) range
from TIER_FOLLOWER_RANGES, and a stored engagement rate inside [0.5, 12.0]
(the rate generate_engagement_rate returns is clipped to that interval and
rounding to 2 decimals keeps it there). -/
theorem C7_influencer_tier_invariants (draws : ℕ → InfDraws) (ent : ℕ → ℕ)
    (n : ℕ) (infs : List Influencer)
    (h : generateInfluencers draws ent n = some infs)
    (inf : Influencer) (hm : inf ∈ infs) :
    inf.tier ∈ ["nano", "micro", "mid", "macro", "mega"] ∧
    (∃ lo hi, TIER_FOLLOWER_RANGES inf.tier = some (lo, hi) ∧
      lo ≤ inf.follower_count ∧ inf.follower_count < hi) ∧
    0.5 ≤ inf.engagement_rate ∧ inf.engagement_rate ≤ 12.0 := by
  obtain ⟨i, _, hrow⟩ := mapM_option_mem _ _ _ h inf hm
  unfold genInfluencer at hrow
  simp only [Option.bind_eq_bind, Option.bind_eq_some, Option.pure_def,
    Option.some.injEq] at hrow
  obtain ⟨tier, htier, platform, hplat, f, hf, r, hr, heq⟩ := hrow
  subst heq
  have hmem : tier ∈ ["nano", "micro", "mid", "macro", "mega"] := by
    have := sampleCat_mem _ _ _ htier
    simpa [TIER_DISTRIBUTION] using this
  refine ⟨hmem, ?_, ?_⟩
  · obtain ⟨lo, hi, hrange⟩ := tier_ranges_total hmem
    obtain ⟨hb1, hb2⟩ := generate_follower_count_bounds hrange hf
    exact ⟨lo, hi, hrange, show lo ≤ f.toNat by omega, show f.toNat < hi by omega⟩
  · obtain ⟨he1, he2⟩ := generate_engagement_rate_bounds hr
    exact round2_engagement_bounds he1 he2

theorem generateInfluencers_c7_eval :
    generateInfluencers zeroInfDraws idEnt 1 = some [c7Inf] := by
  have htier : sampleCat TIER_DISTRIBUTION (0 : ℚ) = some "nano" := by
    norm_num [TIER_DISTRIBUTION, sampleCat]
  have hplat : sampleCat PLATFORM_DISTRIBUTION (0 : ℚ) = some "Instagram" := by
    norm_num [PLATFORM_DISTRIBUTION, sampleCat]
  have hfol : generate_follower_count "nano" u0 = some 1000 := by
    unfold generate_follower_count TIER_FOLLOWER_RANGES
    simp only [Option.map_some', Option.some.injEq]
    have hx : npUniformR (Real.log ((1000 : ℕ) : ℝ)) (Real.log ((10000 : ℕ) : ℝ)) u0 =
        Real.log ((1000 : ℕ) : ℝ) := by
      unfold npUniformR
      norm_num [u0]
    rw [hx, Real.exp_log (by norm_num)]
    unfold pyIntR
    rw [if_pos (by norm_num)]
    norm_num [Int.floor_eq_iff]
  have heng : generate_engagement_rate "nano" 0 u0 true = some 5.7 := by
    unfold generate_engagement_rate TIER_ENGAGEMENT_RATES
    simp only [Option.map_some', Option.some.injEq]
    norm_num [npNormalQ, npUniform, npClip, u0]
  rw [generateInfluencers, show List.range 1 = [0] from rfl, List.mapM_cons,
    List.mapM_nil]
  simp only [genInfluencer, zeroInfDraws, idEnt, u0_val, htier, hplat, hfol,
    heng, Option.some_bind, Option.bind_eq_bind, Option.pure_def]
  norm_num [c7Inf, uuid4Str, pyRound2, round_eq, Int.floor_eq_iff]
  exact ⟨rfl, rfl⟩

theorem C7_influencer_tier_invariants_witness :
    generateInfluencers zeroInfDraws idEnt 1 = some [c7Inf] ∧
    c7Inf.tier ∈ ["nano", "micro", "mid", "macro", "mega"] ∧
    (∃ lo hi, TIER_FOLLOWER_RANGES c7Inf.tier = some (lo, hi) ∧
      lo ≤ c7Inf.follower_count ∧ c7Inf.follower_count < hi) ∧
    0.5 ≤ c7Inf.engagement_rate ∧ c7Inf.engagement_rate ≤ 12.0 := by
  refine ⟨generateInfluencers_c7_eval, ?_⟩
  exact C7_influencer_tier_invariants zeroInfDraws idEnt 1 [c7Inf]
    generateInfluencers_c7_eval c7Inf (by simp)

theorem brand_aov_wf {tier : String} {lo hi : ℕ}
    (h : BRAND_AOV tier = some (lo, hi)) : 1 ≤ lo ∧ lo < hi := by
  unfold BRAND_AOV at h
  split at h <;> simp_all <;> omega

theorem round_int_le_real {z : ℤ} {y : ℝ} (h : (z : ℝ) ≤ y) : z ≤ round y := by
  rw [round_eq]
  refine Int.le_floor.mpr ?_
  linarith

theorem round_le_int_real {z : ℤ} {y : ℝ} (h : y ≤ (z : ℝ)) : round y ≤ z := by
  rw [round_eq]
  have h1 : ⌊y + 1 / 2⌋ ≤ ⌊(z : ℝ) + 1 / 2⌋ := Int.floor_mono (by linarith)
  have h2 : ⌊(z : ℝ) + 1 / 2⌋ = z + ⌊(1 / 2 : ℝ)⌋ := Int.floor_int_add z (1 / 2)
  have h3 : ⌊(1 / 2 : ℝ)⌋ = 0 := by
    rw [Int.floor_eq_iff] <;> norm_num

  omega

theorem pyRound2R_bounds {x a b : ℝ} (za zb : ℤ) (ha : (za : ℝ) = a * 100)
    (hb : (zb : ℝ) = b * 100) (h1 : a ≤ x) (h2 : x ≤ b) :
    a ≤ pyRound2R x ∧ pyRound2R x ≤ b := by
  unfold pyRound2R
  have hlo : za ≤ round (x * 100) := round_int_le_real (by rw [ha]; nlinarith)
  have hhi : round (x * 100) ≤ zb := round_le_int_real (by rw [hb]; nlinarith)
  have hloq : ((za : ℤ) : ℝ) ≤ ((round (x * 100) : ℤ) : ℝ) := by exact_mod_cast hlo
  have hhiq : ((round (x * 100) : ℤ) : ℝ) ≤ ((zb : ℤ) : ℝ) := by exact_mod_cast hhi
  rw [ha] at hloq
  rw [hb] at hhiq
  constructor <;> [linarith; linarith]

/-- C8 (amended): the order value returned by generate_order_value lies in
the widened interval [0.5 low, 1.5 high] — the np.clip bounds in the
source — not in the configured [low, high] range itself. -/
theorem C8_order_value_clip_bounds {tier : String} {lo hi : ℕ} {z v : ℝ}
    (hr : BRAND_AOV tier = some (lo, hi))
    (hv : generate_order_value tier z = some v) :
    (lo : ℝ) * 0.5 ≤ v ∧ v ≤ (hi : ℝ) * 1.5 := by
  unfold generate_order_value at hv
  rw [hr] at hv
  simp only [Option.map_some', Option.some.injEq] at hv
  subst hv
  obtain ⟨hw1, hw2⟩ := brand_aov_wf hr
  have hlh : (lo : ℝ) * 0.5 ≤ (hi : ℝ) * 1.5 := by
    have : (lo : ℝ) ≤ (hi : ℝ) := by exact_mod_cast hw2.le
    nlinarith [Nat.cast_nonneg (α := ℝ) lo]
  obtain ⟨hc1, hc2⟩ := npClip_bounds
    (Real.exp (npNormalR ((Real.log (lo : ℝ) + Real.log (hi : ℝ)) / 2)
      ((Real.log (hi : ℝ) - Real.log (lo : ℝ)) / 4) z)) hlh
  exact pyRound2R_bounds (50 * lo) (150 * hi)
    (by push_cast; ring) (by push_cast; ring) hc1 hc2

theorem order_value_luxury_eval :
    generate_order_value "Luxury" (-40) = some 250 := by
  unfold generate_order_value BRAND_AOV
  simp only [Option.map_some', Option.some.injEq]
  have l2 : (0 : ℝ) ≤ Real.log 2 := Real.log_nonneg (by norm_num)
  have h42 : Real.log 4 = 2 * Real.log 2 := by
    rw [show (4 : ℝ) = 2 ^ 2 by norm_num, Real.log_pow]
    push_cast
    ring
  have hb : Real.log 2000 = Real.log 500 + Real.log 4 := by
    rw [← Real.log_mul (by norm_num) (by norm_num)]
    norm_num
  have ha : Real.log 500 = Real.log 250 + Real.log 2 := by
    rw [← Real.log_mul (by norm_num) (by norm_num)]
    norm_num
  have hm : npNormalR ((Real.log (((500, 2000) : ℕ × ℕ).1 : ℝ) +
        Real.log (((500, 2000) : ℕ × ℕ).2 : ℝ)) / 2)
      ((Real.log (((500, 2000) : ℕ × ℕ).2 : ℝ) -
        Real.log (((500, 2000) : ℕ × ℕ).1 : ℝ)) / 4) (-40) ≤ Real.log 250 := by
    unfold npNormalR
    push_cast
    linarith
  have hval : Real.exp (npNormalR ((Real.log (((500, 2000) : ℕ × ℕ).1 : ℝ) +
        Real.log (((500, 2000) : ℕ × ℕ).2 : ℝ)) / 2)
      ((Real.log (((500, 2000) : ℕ × ℕ).2 : ℝ) -
        Real.log (((500, 2000) : ℕ × ℕ).1 : ℝ)) / 4) (-40)) ≤ 250 := by
    calc Real.exp _ ≤ Real.exp (Real.log 250) := Real.exp_le_exp.mpr hm
    _ = 250 := Real.exp_log (by norm_num)
  have hclip : npClip (Real.exp (npNormalR ((Real.log (((500, 2000) : ℕ × ℕ).1 : ℝ) +
        Real.log (((500, 2000) : ℕ × ℕ).2 : ℝ)) / 2)
      ((Real.log (((500, 2000) : ℕ × ℕ).2 : ℝ) -
        Real.log (((500, 2000) : ℕ × ℕ).1 : ℝ)) / 4) (-40)))
      ((((500, 2000) : ℕ × ℕ).1 : ℝ) * 0.5) ((((500, 2000) : ℕ × ℕ).2 : ℝ) * 1.5) = 250 := by
    unfold npClip
    have hl : ((((500, 2000) : ℕ × ℕ).1 : ℝ) * 0.5) = 250 := by norm_num
    have hh : ((((500, 2000) : ℕ × ℕ).2 : ℝ) * 1.5) = 3000 := by norm_num
    rw [hl, hh, max_eq_left hval, min_eq_right (by norm_num)]
  rw [hclip]
  unfold pyRound2R
  rw [show (250 : ℝ) * 100 = ((25000 : ℤ) : ℝ) by norm_num, round_intCast]
  norm_num

/-- C8 counterexample: for the Luxury brand tier, configured range
[500, 2000], the standard-normal draw -40 yields order value 250 — the
np.clip lower bound 0.5 * 500 — which is outside [500, 2000]. -/
theorem C8_within_range_counterexample :
    generate_order_value "Luxury" (-40) = some 250 ∧
    BRAND_AOV "Luxury" = some (500, 2000) ∧
    ¬ ((500 : ℝ) ≤ 250 ∧ (250 : ℝ) ≤ 2000) :=
  ⟨order_value_luxury_eval, rfl, by norm_num⟩

theorem C8_order_value_clip_bounds_witness :
    BRAND_AOV "Luxury" = some (500, 2000) ∧
    generate_order_value "Luxury" (-40) = some 250 ∧
    ((500 : ℕ) : ℝ) * 0.5 ≤ 250 ∧ (250 : ℝ) ≤ ((2000 : ℕ) : ℝ) * 1.5 :=
  ⟨rfl, order_value_luxury_eval,
   (C8_order_value_clip_bounds
     (show BRAND_AOV "Luxury" = some (500, 2000) from rfl)
     order_value_luxury_eval).1,
   (C8_order_value_clip_bounds
     (show BRAND_AOV "Luxury" = some (500, 2000) from rfl)
     order_value_luxury_eval).2⟩

theorem C9_influencer_score_witness :
    ∃ s ∈ scoreInfluencers [sampleAgg],
      s.influencer_score =
        0.25 * s.engagement_quality_score + 0.25 * s.authenticity_score +
        0.30 * s.conversion_score + 0.15 * s.roi_score +
        0.05 * s.brand_alignment_score ∧
      (s.performance_segment = "Low Performer" ↔ s.influencer_score < 50) := by
  obtain ⟨s, hs⟩ : ∃ s, scoreInfluencers [sampleAgg] = [s] := ⟨_, rfl⟩
  have hm : s ∈ scoreInfluencers [sampleAgg] := by
    rw [hs]
    exact List.mem_singleton.mpr rfl
  obtain ⟨h1, _, _, h4⟩ := C9_influencer_score [sampleAgg] s hm
  exact ⟨s, hm, h1, h4⟩
